import Mathlib

/-!
Verification development for the WinSphere data-refresh subsystem
(`src/services/dataRefreshService.ts` and
`src/services/dataValidationWarningSystem.ts`).

The TypeScript code is shallowly embedded: every function below is a direct
transliteration of the corresponding TS function (same names where Lean
allows, same control flow, same literal message strings).  JavaScript
machine behaviour is modelled as follows:

* JS numbers that are used as integers (draw ids, scores, counts, epoch
  milliseconds) are `Int`/`Nat`; fractional quantities (ratios, hour/day
  spans, backoff factors) are `Rat`.  The code never relies on float
  rounding for these, with one documented exception: the decimal printing
  of the stored compression ratio, which is only used inside a byte-size
  heuristic (`checkLocalStorageSpace`) and is approximated by an exact
  rational rendering.
* `parseInt` is modelled exactly (leading JS whitespace, sign, `0x` hex
  prefix, maximal digit prefix, `none` for NaN).
* `new Date(s)` is modelled by the strict ECMA-262 date-time-string format
  for date-only strings `YYYY-MM-DD` (month 01-12, day valid for the
  month); strings outside that shape parse as Invalid Date (`none`).  The
  host timezone is modelled as UTC.
* Thrown exceptions are modelled with `Except`; functions that catch all
  their exceptions are total Lean functions.
* `localStorage` is an association list from keys to JSON values, with an
  optional byte quota modelling the host's storage limit; `JSON.parse ∘
  JSON.stringify` round trips are modelled by storing the structured JSON
  value and stringifying only where the code needs the character string
  (hashing, byte-size estimates).
* `Date.now()` is an explicit `now : Int` parameter (epoch milliseconds).
-/

set_option maxHeartbeats 4000000
set_option maxRecDepth 1000000

namespace WinSphere

/-! ### JavaScript string and number primitives -/

/-- The whitespace characters recognised by JS `\s` / `trim` (ASCII part;
the code never feeds unicode spaces to these helpers). -/
def jsIsWhitespace (c : Char) : Bool :=
  c == ' ' || c == '\t' || c == '\n' || c == '\r' || c == '\x0b' || c == '\x0c'

/-- JS `String.prototype.trim`. -/
def jsTrim (s : String) : String :=
  ⟨(s.data.dropWhile jsIsWhitespace).reverse.dropWhile jsIsWhitespace |>.reverse⟩

/-- JS `String.prototype.split` with a single-character separator. -/
def jsSplit (s : String) (sep : Char) : List String :=
  s.split (· == sep)

/-- ASCII lower-casing, as `String.prototype.toLowerCase` acts on the
ASCII range (the code only lower-cases CSV headers). -/
def asciiLower (c : Char) : Char :=
  if 'A' ≤ c ∧ c ≤ 'Z' then Char.ofNat (c.toNat + 32) else c

/-- JS `String.prototype.toLowerCase` (ASCII fragment). -/
def jsToLower (s : String) : String := ⟨s.data.map asciiLower⟩

/-- `headerLine.replace(/\s+/g, '')`: delete every whitespace character. -/
def removeWhitespace (s : String) : String := ⟨s.data.filter (!jsIsWhitespace ·)⟩

/-- Does `pat` occur at the head of `l`? (helper for substring search). -/
def charsLead (pat : List Char) (l : List Char) : Bool :=
  match pat, l with
  | [], _ => true
  | _ :: _, [] => false
  | a :: as, b :: bs => a == b && charsLead as bs

/-- Does `pat` occur somewhere in `l`? -/
def charsHaveSeq (pat : List Char) (l : List Char) : Bool :=
  match l with
  | [] => charsLead pat []
  | _ :: tl => charsLead pat l || charsHaveSeq pat tl

/-- JS `String.prototype.includes`. -/
def jsIncludes (hay needle : String) : Bool := charsHaveSeq needle.data hay.data

/-- Maximal leading run of decimal digits, returning the value and rest. -/
def takeDecDigits : List Char → Option Nat → Option Nat
  | [], acc => acc
  | c :: cs, acc =>
    if c.isDigit then
      takeDecDigits cs (some ((acc.getD 0) * 10 + (c.toNat - '0'.toNat)))
    else acc

/-- Hex digit value, if any. -/
def hexVal (c : Char) : Option Nat :=
  if '0' ≤ c ∧ c ≤ '9' then some (c.toNat - '0'.toNat)
  else if 'a' ≤ c ∧ c ≤ 'f' then some (c.toNat - 'a'.toNat + 10)
  else if 'A' ≤ c ∧ c ≤ 'F' then some (c.toNat - 'A'.toNat + 10)
  else none

/-- Maximal leading run of hex digits. -/
def takeHexDigits : List Char → Option Nat → Option Nat
  | [], acc => acc
  | c :: cs, acc =>
    match hexVal c with
    | some v => takeHexDigits cs (some ((acc.getD 0) * 16 + v))
    | none => acc

/-- JS `parseInt(s)` (radix auto-detected): skip leading whitespace, read an
optional sign, then either a `0x`/`0X` hex literal or a maximal decimal
digit prefix; `none` models `NaN`. -/
def jsParseInt (s : String) : Option Int :=
  let l := s.data.dropWhile jsIsWhitespace
  let (sign, l) : Int × List Char :=
    match l with
    | '-' :: rest => (-1, rest)
    | '+' :: rest => (1, rest)
    | _ => (1, l)
  let mag : Option Nat :=
    match l with
    | '0' :: 'x' :: rest => takeHexDigits rest none
    | '0' :: 'X' :: rest => takeHexDigits rest none
    | _ => takeDecDigits l none
  mag.map (fun n => sign * n)

/-- JS `String.prototype.padStart(2, '0')`. -/
def padStart2 (s : String) : String :=
  if s.length ≥ 2 then s else ⟨List.replicate (2 - s.length) '0' ++ s.data⟩

/-- JS `Array.prototype.sort(cmp)`: a stable sort driven by a numeric
comparator (V8's sort is stable). -/
def jsSortBy {α : Type} (cmp : α → α → Int) (l : List α) : List α :=
  l.mergeSort (fun a b => cmp a b ≤ 0)

/-- Wrap an integer to a signed 32-bit value (JS `x | 0` / `x & x`);
the literals are 2^31 and 2^32. -/
def toInt32 (n : Int) : Int := (n + 2147483648) % 4294967296 - 2147483648

/-- One base-36 digit character. -/
def base36Digit (d : Nat) : Char :=
  if d < 10 then Char.ofNat ('0'.toNat + d) else Char.ofNat ('a'.toNat + (d - 10))

/-- Base-36 digit list of a natural number (most significant first),
computed with structural fuel (`fuel > log₃₆ n` suffices; callers pass
`n + 1`). -/
def natToBase36Core : Nat → Nat → List Char → List Char
  | 0, _, acc => acc
  | fuel + 1, n, acc =>
    let c := base36Digit (n % 36)
    if n < 36 then c :: acc
    else natToBase36Core fuel (n / 36) (c :: acc)

/-- JS `Number.prototype.toString(36)` for a natural number. -/
def natToBase36 (n : Nat) : String := ⟨natToBase36Core (n + 1) n []⟩

/-- JS `n.toString(36)` for an integer value. -/
def intToBase36 (n : Int) : String :=
  if n < 0 then "-" ++ natToBase36 (-n).toNat else natToBase36 n.toNat

/-! ### Calendar arithmetic (UTC model of the host clock)

Standard civil-calendar conversions; `days` counts days since 1970-01-01. -/

def isLeapYear (y : Int) : Bool := y % 4 == 0 && (y % 100 != 0 || y % 400 == 0)

def daysInMonth (y : Int) (m : Nat) : Nat :=
  if m == 2 then (if isLeapYear y then 29 else 28)
  else if m == 4 || m == 6 || m == 9 || m == 11 then 30
  else 31

/-- Days since the epoch of a civil date (Hinnant's `days_from_civil`). -/
def daysFromCivil (y : Int) (m d : Nat) : Int :=
  let y' : Int := if m ≤ 2 then y - 1 else y
  let era : Int := (if 0 ≤ y' then y' else y' - 399) / 400
  let yoe : Int := y' - era * 400
  let mp : Int := ((m : Int) + 9) % 12
  let doy : Int := (153 * mp + 2) / 5 + (d : Int) - 1
  let doe : Int := yoe * 365 + yoe / 4 - yoe / 100 + doy
  era * 146097 + doe - 719468

/-- Civil date (year, month, day) of a days-since-epoch count
(Hinnant's `civil_from_days`). -/
def civilFromDays (z : Int) : Int × Nat × Nat :=
  let z := z + 719468
  let era : Int := (if 0 ≤ z then z else z - 146096) / 146097
  let doe : Int := z - era * 146097
  let yoe : Int := (doe - doe / 1460 + doe / 36524 - doe / 146096) / 365
  let y : Int := yoe + era * 400
  let doy : Int := doe - (365 * yoe + yoe / 4 - yoe / 100)
  let mp : Int := (5 * doy + 2) / 153
  let d : Int := doy - (153 * mp + 2) / 5 + 1
  let m : Int := if mp < 10 then mp + 3 else mp - 9
  (if m ≤ 2 then y + 1 else y, m.toNat, d.toNat)

/-- The (UTC) calendar year containing an epoch-millisecond instant. -/
def yearOfMs (ms : Int) : Int :=
  (civilFromDays (Int.fdiv ms 86400000)).1

/-- Are all characters decimal digits (and the string non-empty)? -/
def allDigits (l : List Char) : Bool :=
  match l with
  | [] => false
  | _ => l.all (·.isDigit)

def digitsToNat (l : List Char) : Nat :=
  l.foldl (fun acc c => acc * 10 + (c.toNat - '0'.toNat)) 0

/-- `new Date(s).getTime()` for the strings this system produces, modelled
by the strict ECMA-262 date-only format `YYYY-MM-DD` (exactly 4-2-2 digits,
month 01-12, day within the month); every other string is Invalid Date.
Returns days since the epoch (`getTime` is that times 86400000). -/
def jsDateParseDays (s : String) : Option Int :=
  match jsSplit s '-' with
  | [ys, ms, ds] =>
    if ys.data.length == 4 && allDigits ys.data &&
       ms.data.length == 2 && allDigits ms.data &&
       ds.data.length == 2 && allDigits ds.data then
      let y : Int := (digitsToNat ys.data : Int)
      let m := digitsToNat ms.data
      let d := digitsToNat ds.data
      if 1 ≤ m && m ≤ 12 && 1 ≤ d && d ≤ daysInMonth y m then
        some (daysFromCivil y m d)
      else none
    else none
  | _ => none

/-- Print a natural number padded to at least `w` digits. -/
def natPad (w n : Nat) : String :=
  let s := toString n
  if s.length ≥ w then s else ⟨List.replicate (w - s.length) '0' ++ s.data⟩

/-- `new Date(nowMs).toISOString().split('T')[0]`: the UTC date of an epoch
instant as `YYYY-MM-DD`. -/
def todayStr (nowMs : Int) : String :=
  let (y, m, d) := civilFromDays (Int.fdiv nowMs 86400000)
  natPad 4 y.toNat ++ "-" ++ natPad 2 m ++ "-" ++ natPad 2 d

/-! ### Data model (`israeliLotteryAPI.ts`, `dataRefreshService.ts`) -/

/-- `IsraeliLotteryResult`: one lottery draw record. -/
structure LotteryRecord where
  date : String
  drawNumber : Int
  numbers : List Int
  bonus : Int
  jackpot : Option Int
deriving DecidableEq, Repr

/-- `DataRefreshErrorType`. -/
inductive DataRefreshErrorType where
  | network_error
  | validation_error
  | processing_error
  | timeout_error
  | cors_error
  | server_error
  | unknown_error
deriving DecidableEq, Repr

/-- `DataRefreshError`. -/
structure DataRefreshError where
  type : DataRefreshErrorType
  message : String
  details : Option String
  retryable : Bool
  estimatedRetryTime : Option Int
deriving DecidableEq, Repr

/-- Hour counts handed to the result contract; `getDataAge` can return the
JS value `Infinity`, modelled as a separate constructor. -/
inductive JsHours where
  | infinity
  | finite (q : ℚ)
deriving DecidableEq, Repr

/-- `DataRefreshResult` (optional TS fields are `Option`s). -/
structure DataRefreshResult where
  success : Bool
  data : Option (List LotteryRecord)
  error : Option String
  errorDetails : Option DataRefreshError
  fromCache : Bool
  dataAge : JsHours
  recordCount : Nat
  retryAttempts : Option Nat
  fallbackUsed : Option Bool
deriving DecidableEq, Repr

/-- The `validationMetrics` bundle of a `DataValidationResult`. -/
structure ValidationMetricsOut where
  totalRows : Int
  validRows : Nat
  invalidRows : Nat
  completenessRatio : ℚ
  dateEarliest : String
  dateLatest : String
  numberDiversity : Nat
  bonusDiversity : Nat
  suspiciousPatterns : Nat
deriving DecidableEq, Repr

/-- `DataValidationResult`. -/
structure DataValidationResult where
  isValid : Bool
  errors : List String
  warnings : List String
  recordCount : Nat
  latestDate : String
  hasRequiredColumns : Bool
  dataQualityScore : Int
  validationMetrics : Option ValidationMetricsOut
deriving DecidableEq, Repr

/-- `DataRefreshConfig`. -/
structure DataRefreshConfig where
  maxRetries : Nat
  retryDelay : ℚ
  cacheTimeout : ℚ
  validateDataQuality : Bool
  fallbackToCachedData : Bool
  dataSourceUrl : String
deriving DecidableEq, Repr

/-- `DEFAULT_CONFIG`. -/
def DEFAULT_CONFIG : DataRefreshConfig :=
  { maxRetries := 3
    retryDelay := 1000
    cacheTimeout := 24
    validateDataQuality := true
    fallbackToCachedData := true
    dataSourceUrl := "https://www.pais.co.il/lotto/archive.aspx" }

/-- `CacheConfig`. -/
structure CacheConfig where
  maxCacheSize : Nat
  compressionEnabled : Bool
  cacheVersioning : Bool
  memoryOptimization : Bool
deriving DecidableEq, Repr

/-- The cache configuration pinned by the `DataRefreshService` constructor. -/
def defaultCacheConfig : CacheConfig :=
  { maxCacheSize := 1000
    compressionEnabled := true
    cacheVersioning := true
    memoryOptimization := true }

/-- `CacheMetadata`. -/
structure CacheMetadata where
  version : String
  timestamp : Int
  recordCount : Nat
  dataHash : String
  compressionRatio : Option ℚ
  lastAccessTime : Int
deriving DecidableEq, Repr

/-! ### JSON values and `localStorage`

`JSON.stringify`/`JSON.parse` round trips on plain data are modelled by
storing the structured JSON value; `jsonStringify` below produces the
character string where the code needs one (content hashing and byte-size
estimates). -/

/-- A JSON value.  Numbers are rationals; every number this system ever
stores is either an integer (printed exactly) or the compression ratio,
whose decimal printing is approximated (see `jsonNumString`). -/
inductive JVal where
  | jnull
  | jbool (b : Bool)
  | jnum (q : ℚ)
  | jstr (s : String)
  | jarr (items : List JVal)
  | jobj (fields : List (String × JVal))

/-- JSON string escaping as performed by `JSON.stringify`. -/
def jsonEscapeChar (c : Char) : List Char :=
  if c == '"' then ['\\', '"']
  else if c == '\\' then ['\\', '\\']
  else if c == '\n' then ['\\', 'n']
  else if c == '\r' then ['\\', 'r']
  else if c == '\t' then ['\\', 't']
  else if c == '\x08' then ['\\', 'b']
  else if c == '\x0c' then ['\\', 'f']
  else if c.toNat < 32 then
    '\\' :: 'u' :: '0' :: '0' ::
      [base36Digit (c.toNat / 16), base36Digit (c.toNat % 16)]
  else [c]

def jsonEscape (s : String) : String :=
  "\"" ++ ⟨s.data.flatMap jsonEscapeChar⟩ ++ "\""

/-- Printing of a JSON number.  Integers print exactly as JS does;
non-integers (only the compression ratio) are rendered as an exact
fraction — an approximation of JS float printing that only influences the
storage byte-size heuristic, never a stored/compared value. -/
def jsonNumString (q : ℚ) : String :=
  if q.den = 1 then toString q.num
  else toString q.num ++ "/" ++ toString q.den

mutual

def jsonStringify : JVal → String
  | .jnull => "null"
  | .jbool b => if b then "true" else "false"
  | .jnum q => jsonNumString q
  | .jstr s => jsonEscape s
  | .jarr items => "[" ++ jsonStringifyItems items ++ "]"
  | .jobj fields => "\x7b" ++ jsonStringifyFields fields ++ "\x7d"

def jsonStringifyItems : List JVal → String
  | [] => ""
  | [v] => jsonStringify v
  | v :: rest => jsonStringify v ++ "," ++ jsonStringifyItems rest

def jsonStringifyFields : List (String × JVal) → String
  | [] => ""
  | [(k, v)] => jsonEscape k ++ ":" ++ jsonStringify v
  | (k, v) :: rest => jsonEscape k ++ ":" ++ jsonStringify v ++ "," ++ jsonStringifyFields rest

end

/-- Field lookup in a JSON object (JS property access). -/
def JVal.getField : JVal → String → Option JVal
  | .jobj fields, k => fields.lookup k
  | _, _ => none

/-- Read a JSON number as an integer. -/
def JVal.asInt : JVal → Option Int
  | .jnum q => if q.den = 1 then some q.num else none
  | _ => none

def JVal.asRat : JVal → Option ℚ
  | .jnum q => some q
  | _ => none

def JVal.asStr : JVal → Option String
  | .jstr s => some s
  | _ => none

/-- String length with the count forced to a literal at every step (the
value is exactly `s.length`; the forcing keeps kernel reduction shallow
on long serialized blobs). -/
def jsStrLenGo : Nat → List Char → Nat
  | n, [] => n
  | n, _ :: cs =>
    match n + 1 with
    | 0 => 0
    | m + 1 => jsStrLenGo (m + 1) cs

def jsStrLen (s : String) : Nat := jsStrLenGo 0 s.data

/-- The browser `localStorage`, keyed by strings; `quota` models the
host's storage limit in characters (`none` = unlimited). -/
structure JsStorage where
  entries : List (String × JVal)
  quota : Option Nat

/-- Character size of one entry, as `checkLocalStorageSpace` measures it
(`localStorage[key].length + key.length`). -/
def storageEntrySize (e : String × JVal) : Nat :=
  jsStrLen e.1 + jsStrLen (jsonStringify e.2)

/-- Total character usage of the storage. -/
def storageUsage (st : JsStorage) : Nat :=
  (st.entries.map storageEntrySize).sum

def storageGetItem (st : JsStorage) (k : String) : Option JVal :=
  st.entries.lookup k

/-- Replace the value at a key, or append the pair. -/
def entriesSet (l : List (String × JVal)) (k : String) (v : JVal) : List (String × JVal) :=
  match l with
  | [] => [(k, v)]
  | (k', v') :: rest =>
    if k' = k then (k', v) :: rest else (k', v') :: entriesSet rest k v

/-- `localStorage.setItem`: throws a `QuotaExceededError` when the write
would push usage past the host quota. -/
def storageSetItem (st : JsStorage) (k : String) (v : JVal) : Except String JsStorage :=
  let entries' := entriesSet st.entries k v
  let st' : JsStorage := { st with entries := entries' }
  match st.quota with
  | none => .ok st'
  | some q =>
    if storageUsage st' ≤ q then .ok st'
    else .error "QuotaExceededError: the quota has been exceeded"

def storageRemoveItem (st : JsStorage) (k : String) : JsStorage :=
  { st with entries := st.entries.filter (fun e => e.1 ≠ k) }

/-- The full mutable state of a `DataRefreshService` instance plus its
browser storage. -/
structure ServiceState where
  config : DataRefreshConfig
  cacheConfig : CacheConfig
  lastUpdateTime : Option Int
  cachedData : List LotteryRecord
  cacheMetadata : Option CacheMetadata
  storage : JsStorage

def CACHE_VERSION : String := "2.0"
def CACHE_KEY : String := "lottery-data-cache-v2"
def METADATA_KEY : String := "lottery-cache-metadata-v2"

/-! ### Record parser (`parseIsraeliDate`, `parseCSVRow`, `parseCSVContent`) -/

/-- `parseIsraeliDate`: normalise `DD/MM/YYYY` or `DD.MM.YYYY` to
`YYYY-MM-DD`; anything else falls back to today's date. -/
def parseIsraeliDate (dateStr : String) (today : String) : String :=
  let cleanDate : String := ⟨dateStr.data.filter (fun c => c.isDigit || c == '/' || c == '.' || c == '-')⟩
  if jsIncludes cleanDate "/" then
    match jsSplit cleanDate '/' with
    | [p0, p1, p2] => padStart2 p2 ++ "-" ++ padStart2 p1 ++ "-" ++ padStart2 p0
    | _ => today
  else if jsIncludes cleanDate "." then
    match jsSplit cleanDate '.' with
    | [p0, p1, p2] => padStart2 p2 ++ "-" ++ padStart2 p1 ++ "-" ++ padStart2 p0
    | _ => today
  else today

/-- `parseCSVRow`: parse one CSV data row to a record, `none` for any
malformed row (the TS catch block is unreachable: no callee throws). -/
def parseCSVRow (line : String) (_lineNumber : Nat) (today : String) : Option LotteryRecord :=
  let columns := jsSplit line ','
  if columns.length ≥ 9 then
    let drawNumber := jsParseInt (columns.getD 0 "")
    let dateStr := columns.getD 1 ""
    let nums := (List.range 6).map (fun j => jsParseInt (columns.getD (j + 2) ""))
    let bonus := jsParseInt (columns.getD 8 "")
    let date := parseIsraeliDate dateStr today
    match drawNumber, bonus with
    | some dn, some b =>
      if dn > 0 && date ≠ "" &&
         nums.all (fun o => match o with
           | some n => 1 ≤ n && n ≤ 37
           | none => false) &&
         1 ≤ b && b ≤ 7 then
        some { date := date
               drawNumber := dn
               numbers := jsSortBy (fun a b => a - b) (nums.filterMap id)
               bonus := b
               jackpot := none }
      else none
    | _, _ => none
  else none

/-- `parseCSVContentStandard`: skip the header, drop blank/short lines,
parse each row, sort descending by draw number. -/
def parseCSVContentStandard (csvContent : String) (today : String) : List LotteryRecord :=
  let lines := jsSplit csvContent '\n'
  let results := (lines.drop 1).foldl
    (fun acc line =>
      let l := jsTrim line
      if l = "" || l.length < 10 then acc
      else match parseCSVRow l 0 today with
        | some r => acc ++ [r]
        | none => acc) []
  jsSortBy (fun a b => b.drawNumber - a.drawNumber) results

/-- One loop step of the chunked parser: parse a complete line, then apply
the in-flight memory cap. -/
def chunkedStep (cfg : CacheConfig) (today : String) (acc : List LotteryRecord) (line : String) : List LotteryRecord :=
  let l := jsTrim line
  if l = "" || l.length < 10 then acc
  else
    let acc := match parseCSVRow l 0 today with
      | some r => acc ++ [r]
      | none => acc
    if cfg.memoryOptimization && acc.length > cfg.maxCacheSize * 2 then
      (jsSortBy (fun a b => b.drawNumber - a.drawNumber) acc).take cfg.maxCacheSize
    else acc

/-- `parseCSVContentInChunks`.  The chunk/buffer plumbing of the TS code
reconstructs exactly the '\n'-separated lines of the whole string — all
complete lines (with the first skipped as header) go through the loop
body, and the final unterminated line is parsed directly (without the
short-line check) when its trim is non-empty; the plumbing is modelled as
that line iteration. -/
def parseCSVContentInChunks (csvContent : String) (cfg : CacheConfig) (today : String) : List LotteryRecord :=
  let lines := jsSplit csvContent '\n'
  let completeLines := lines.dropLast
  let lastBuffer := lines.getLastD ""
  let results := (completeLines.drop 1).foldl (chunkedStep cfg today) []
  let results :=
    if jsTrim lastBuffer ≠ "" then
      match parseCSVRow (jsTrim lastBuffer) 0 today with
      | some r => results ++ [r]
      | none => results
    else results
  let results := jsSortBy (fun a b => b.drawNumber - a.drawNumber) results
  if cfg.memoryOptimization && results.length > cfg.maxCacheSize then
    results.take cfg.maxCacheSize
  else results

/-- `parseCSVContent`: dispatch on the 1MB threshold. -/
def parseCSVContent (csvContent : String) (cfg : CacheConfig) (today : String) : List LotteryRecord :=
  let isLargeFile := csvContent.length > 1024 * 1024
  if isLargeFile && cfg.memoryOptimization then
    parseCSVContentInChunks csvContent cfg today
  else parseCSVContentStandard csvContent today

/-! ### Validation & quality engine (`validateData` and helpers) -/

/-- The mutable `validationMetrics` record threaded through row validation. -/
structure MetricsState where
  totalRows : Int
  validRows : Nat
  invalidRows : Nat
  duplicateDrawNumbers : List Int
  dateEarliest : String
  dateLatest : String
  numberFrequency : List (Int × Nat)
  bonusFrequency : List (Int × Nat)
  suspiciousPatterns : List String
deriving DecidableEq, Repr

def MetricsState.initial : MetricsState :=
  { totalRows := 0, validRows := 0, invalidRows := 0
    duplicateDrawNumbers := []
    dateEarliest := "", dateLatest := ""
    numberFrequency := [], bonusFrequency := []
    suspiciousPatterns := [] }

/-- `Map.set(k, (Map.get(k) || 0) + 1)` with JS `Map` insertion order. -/
def freqIncr (m : List (Int × Nat)) (k : Int) : List (Int × Nat) :=
  match m with
  | [] => [(k, 1)]
  | (k', v) :: rest => if k' = k then (k', v + 1) :: rest else (k', v) :: freqIncr rest k

/-- Result of `validateDataRow`. -/
structure RowValidation where
  isValid : Bool
  errors : List String
  warnings : List String
  qualityPenalty : Int
  date : Option String
  drawNumber : Option Int
deriving DecidableEq, Repr

/-- Length of the trailing run of consecutive integers, as computed by the
TS loop (the counter resets on every break, so only the final run counts). -/
def lastConsecutiveRun : List Int → Nat
  | [] => 1
  | x :: xs => lastConsecutiveRunAux x 1 xs
where
  lastConsecutiveRunAux (prev : Int) (c : Nat) : List Int → Nat
    | [] => c
    | y :: ys =>
      if y = prev + 1 then lastConsecutiveRunAux y (c + 1) ys
      else lastConsecutiveRunAux y 1 ys

/-- JS `Array.prototype.join(', ')` over integers. -/
def joinCommaInts (l : List Int) : String :=
  String.intercalate ", " (l.map toString)

/-- `validateDataRow`: all per-row checks of the TS function, in source
order, threading the metrics state.  `drawNumber := none` models the JS
`NaN`/absent cases (both falsy at the use site); `nowMs` supplies
`Date.now()` and the current year. -/
def validateDataRow (line : String) (rowNumber : Nat) (m : MetricsState) (nowMs : Int) :
    RowValidation × MetricsState :=
  let columns := (jsSplit line ',').map jsTrim
  if columns.length < 9 then
    let n := columns.length
    ({ isValid := false
       errors := [s!"Row {rowNumber}: Insufficient columns (expected at least 9, got {n})"]
       warnings := [], qualityPenalty := 10, date := none, drawNumber := none }, m)
  else
    -- draw number block
    let drawNumberStr := columns.getD 0 ""
    let (dnErrors, dnWarnings, dnPenalty, dnValidFlip, drawNumber, m) :
        List String × List String × Int × Bool × Option Int × MetricsState :=
      if drawNumberStr = "" then
        ([s!"Row {rowNumber}: Missing draw number"], [], 5, true, none, m)
      else
        match jsParseInt drawNumberStr with
        | none =>
          ([s!"Row {rowNumber}: Invalid draw number \x27{drawNumberStr}\x27"], [], 5, true, none, m)
        | some d =>
          if d ≤ 0 then
            ([s!"Row {rowNumber}: Invalid draw number \x27{drawNumberStr}\x27"], [], 5, true, some d, m)
          else if d > 10000 then
            ([], [s!"Row {rowNumber}: Unusually high draw number {d}"], 1, false, some d, m)
          else if m.duplicateDrawNumbers.contains d then
            ([s!"Row {rowNumber}: Duplicate draw number {d}"], [], 8, true, some d, m)
          else
            ([], [], 0, false, some d,
             { m with duplicateDrawNumbers := m.duplicateDrawNumbers ++ [d] })
    -- date block
    let dateStr := columns.getD 1 ""
    let (dtErrors, dtWarnings, dtPenalty, dtValidFlip, date) :
        List String × List String × Int × Bool × Option String :=
      if dateStr = "" then
        ([s!"Row {rowNumber}: Missing date"], [], 5, true, none)
      else
        let d := parseIsraeliDate dateStr (todayStr nowMs)
        match jsDateParseDays d with
        | none =>
          ([s!"Row {rowNumber}: Invalid date format \x27{dateStr}\x27"], [], 3, true, some d)
        | some z =>
          let dateYear := (civilFromDays z).1
          let currentYear := yearOfMs nowMs
          if dateYear < 1975 then
            ([], [s!"Row {rowNumber}: Date {dateStr} is before Israeli lottery started (1975)"], 2, false, some d)
          else if dateYear > currentYear + 1 then
            ([], [s!"Row {rowNumber}: Future date {dateStr}"], 2, false, some d)
          else ([], [], 0, false, some d)
    -- main numbers block (columns 2..7)
    let numStep := fun (acc : List String × Int × Bool × List Int × MetricsState) (j : Nat) =>
      let (errs, pen, flip, nums, m) := acc
      let numStr := columns.getD j ""
      let j1 := j + 1
      if numStr = "" then
        (errs ++ [s!"Row {rowNumber}: Missing number in column {j1}"], pen + 3, true, nums, m)
      else
        match jsParseInt numStr with
        | none =>
          (errs ++ [s!"Row {rowNumber}: Non-numeric value \x27{numStr}\x27 in column {j1}"], pen + 3, true, nums, m)
        | some n =>
          if n < 1 || n > 37 then
            (errs ++ [s!"Row {rowNumber}: Number {n} out of range (1-37) in column {j1}"], pen + 4, true, nums, m)
          else
            (errs, pen, flip, nums ++ [n], { m with numberFrequency := freqIncr m.numberFrequency n })
    let (numErrors, numPenalty, numValidFlip, numbers, m) :=
      [2, 3, 4, 5, 6, 7].foldl numStep ([], 0, false, [], m)
    -- duplicate / suspicious-pattern block
    let (dupErrors, dupWarnings, dupPenalty, dupValidFlip, m) :
        List String × List String × Int × Bool × MetricsState :=
      if numbers.length = 6 then
        let (dErr, dPen, dFlip) : List String × Int × Bool :=
          if numbers.eraseDups.length ≠ 6 then
            let joined := joinCommaInts numbers
            ([s!"Row {rowNumber}: Duplicate numbers in the same draw: [{joined}]"], 8, true)
          else ([], 0, false)
        let sortedNumbers := jsSortBy (fun a b => a - b) numbers
        let consecutiveCount := lastConsecutiveRun sortedNumbers
        let (cWarn, cPen, m) : List String × Int × MetricsState :=
          if consecutiveCount ≥ 4 then
            ([s!"Row {rowNumber}: Suspicious pattern - {consecutiveCount} consecutive numbers"], 2,
             { m with suspiciousPatterns :=
                 m.suspiciousPatterns ++ [s!"Row {rowNumber}: {consecutiveCount} consecutive numbers"] })
          else ([], 0, m)
        let low := (numbers.filter (fun n => n ≤ 12)).length
        let mid := (numbers.filter (fun n => 12 < n && n ≤ 25)).length
        let high := (numbers.filter (fun n => 25 < n)).length
        let (rWarn, rPen, m) : List String × Int × MetricsState :=
          if low = 6 || mid = 6 || high = 6 then
            ([s!"Row {rowNumber}: All numbers in same range (suspicious)"], 2,
             { m with suspiciousPatterns :=
                 m.suspiciousPatterns ++ [s!"Row {rowNumber}: All numbers in same range"] })
          else ([], 0, m)
        (dErr, cWarn ++ rWarn, dPen + cPen + rPen, dFlip, m)
      else ([], [], 0, false, m)
    -- bonus block
    let bonusStr := columns.getD 8 ""
    let (bErrors, bPenalty, bValidFlip, m) : List String × Int × Bool × MetricsState :=
      if bonusStr = "" then
        ([s!"Row {rowNumber}: Missing bonus number"], 3, true, m)
      else
        match jsParseInt bonusStr with
        | none =>
          ([s!"Row {rowNumber}: Non-numeric bonus value \x27{bonusStr}\x27"], 3, true, m)
        | some b =>
          if b < 1 || b > 7 then
            ([s!"Row {rowNumber}: Bonus number {b} out of range (1-7)"], 4, true, m)
          else
            ([], 0, false, { m with bonusFrequency := freqIncr m.bonusFrequency b })
    ({ isValid := !(dnValidFlip || dtValidFlip || numValidFlip || dupValidFlip || bValidFlip)
       errors := dnErrors ++ dtErrors ++ numErrors ++ dupErrors ++ bErrors
       warnings := dnWarnings ++ dtWarnings ++ dupWarnings
       qualityPenalty := dnPenalty + dtPenalty + numPenalty + dupPenalty + bPenalty
       date := date
       drawNumber := drawNumber }, m)

/-- `validateCSVHeader`. -/
def validateCSVHeader (headerLine : String) : Bool × List String × List String :=
  let header := removeWhitespace (jsToLower headerLine)
  let columns := jsSplit header ','
  let requiredColumns : List (List String) :=
    [["drawnumber", "draw", "drawno", "number"],
     ["date", "drawdate", "datum"],
     ["num1", "1", "number1", "ball1"],
     ["num2", "2", "number2", "ball2"],
     ["num3", "3", "number3", "ball3"],
     ["num4", "4", "number4", "ball4"],
     ["num5", "5", "number5", "ball5"],
     ["num6", "6", "number6", "ball6"],
     ["bonus", "strong", "strongnumber", "extra"]]
  let missingColumns := requiredColumns.filter
    (fun names => !(columns.any (fun col => names.any (fun name => jsIncludes col name))))
  let errors :=
    if missingColumns.length > 0 then
      let missing := String.intercalate ", " (missingColumns.map (fun names => names.getD 0 ""))
      [s!"Missing required columns: {missing}"]
    else []
  let nCols := columns.length
  let warnings :=
    (if nCols < 9 then [s!"Header has only {nCols} columns, expected at least 9"]
     else if nCols > 15 then [s!"Header has {nCols} columns, which is more than expected"]
     else []) ++
    (let nEmpty := (columns.filter (fun col => jsTrim col = "")).length
     if nEmpty > 0 then [s!"Header contains {nEmpty} empty columns"] else [])
  (missingColumns.length = 0, errors, warnings)

/-- `validateDrawNumberSequence`. -/
def validateDrawNumberSequence (drawNumbers : List Int) : List String × List String :=
  let sortedDraws := jsSortBy (fun a b => b - a) drawNumbers
  let pairs := sortedDraws.zip (sortedDraws.drop 1)
  let gapWarnings := pairs.foldl
    (fun acc (p : Int × Int) =>
      let gap := p.1 - p.2
      if gap > 50 && gap > 200 then
        acc ++ [s!"Large gap in draw numbers: {p.2} to {p.1} (gap: {gap})"]
      else acc) []
  let largeGaps := (pairs.filter (fun p => p.1 - p.2 > 50)).length
  let nDraws := sortedDraws.length
  let manyWarnings :=
    if (largeGaps : ℚ) > (nDraws : ℚ) * (3 / 10) then
      [s!"Many large gaps in draw sequence ({largeGaps} gaps out of {nDraws} draws)"]
    else []
  let minDraw := (drawNumbers.foldl min (drawNumbers.getD 0 0))
  let maxDraw := (drawNumbers.foldl max (drawNumbers.getD 0 0))
  let errors := if minDraw < 1 then [s!"Invalid minimum draw number: {minDraw}"] else []
  let maxWarnings := if maxDraw > 10000 then [s!"Very high maximum draw number: {maxDraw}"] else []
  (errors, gapWarnings ++ manyWarnings ++ maxWarnings)

/-- `validateDatasetSize`. -/
def validateDatasetSize (recordCount : Nat) : List String × List String × Int :=
  if recordCount = 0 then
    (["No valid data records found"], [], 50)
  else if recordCount < 5 then
    ([s!"Dataset too small ({recordCount} records). Minimum 5 records required."], [], 30)
  else if recordCount < 20 then
    ([], [s!"Small dataset ({recordCount} records). Recommend at least 20 records for reliable predictions."], 15)
  else if recordCount < 50 then
    ([], [s!"Moderate dataset size ({recordCount} records). Recommend 50+ records for optimal predictions."], 5)
  else ([], [], 0)

/-- `x.toFixed(1)` for a rational, rounding half away from zero (the exact
float tie-breaking of JS never matters: these strings are only carried as
warning text). -/
def toFixed1 (q : ℚ) : String :=
  let tenths : Int := round (q * 10)
  let sign := if tenths < 0 then "-" else ""
  let n := tenths.natAbs
  sign ++ toString (n / 10) ++ "." ++ toString (n % 10)

/-- `detectStatisticalAnomalies`: returns (warnings, qualityPenalty). -/
def detectStatisticalAnomalies (m : MetricsState) : List String × Int :=
  let (numWarnings, numPenalty) : List String × Int :=
    if m.numberFrequency.length > 0 then
      let frequencies := m.numberFrequency.map (fun p => (p.2 : ℚ))
      let avgFrequency := frequencies.sum / (frequencies.length : ℚ)
      let maxFrequency := frequencies.foldl max (frequencies.getD 0 0)
      let minFrequency := frequencies.foldl min (frequencies.getD 0 0)
      let (w1, p1) : List String × Int :=
        if maxFrequency > avgFrequency * 3 then
          let mx := maxFrequency.num / maxFrequency.den
          let avgS := toFixed1 avgFrequency
          ([s!"Suspicious number frequency: Number appears {mx} times (avg: {avgS})"], 3)
        else ([], 0)
      let (w2, p2) : List String × Int :=
        if minFrequency = 0 || maxFrequency / minFrequency > 10 then
          (["Highly uneven number distribution detected"], 2)
        else ([], 0)
      (w1 ++ w2, p1 + p2)
    else ([], 0)
  let (bonusWarnings, bonusPenalty) : List String × Int :=
    if m.bonusFrequency.length > 0 then
      let bonusFreqs := m.bonusFrequency.map (fun p => (p.2 : ℚ))
      let avgBonusFreq := bonusFreqs.sum / (bonusFreqs.length : ℚ)
      let maxBonusFreq := bonusFreqs.foldl max (bonusFreqs.getD 0 0)
      if maxBonusFreq > avgBonusFreq * 4 then
        (["Suspicious bonus number frequency detected"], 2)
      else ([], 0)
    else ([], 0)
  let (patWarnings, patPenalty) : List String × Int :=
    if (m.suspiciousPatterns.length : ℚ) > (m.validRows : ℚ) * (1 / 10) then
      let n := m.suspiciousPatterns.length
      ([s!"High number of suspicious patterns detected ({n})"], 5)
    else ([], 0)
  (numWarnings ++ bonusWarnings ++ patWarnings, numPenalty + bonusPenalty + patPenalty)

/-- `performAdvancedQualityChecks`: pushes warnings only (it receives the
score by value, so its `qualityScore` parameter has no effect). -/
def performAdvancedQualityChecks (m : MetricsState) : List String :=
  let completenessWarnings :=
    if m.totalRows ≠ 0 ∧ (m.validRows : ℚ) / (m.totalRows : ℚ) < (8 / 10) then
      let pct := toFixed1 ((m.validRows : ℚ) / (m.totalRows : ℚ) * 100)
      [s!"Low data completeness: {pct}% of rows are valid"]
    else []
  let diversityWarnings :=
    if m.numberFrequency.length < 30 then
      let n := m.numberFrequency.length
      [s!"Limited number diversity: Only {n} different numbers found"]
    else []
  let bonusWarnings :=
    if m.bonusFrequency.length < 5 then
      let n := m.bonusFrequency.length
      [s!"Limited bonus number diversity: Only {n} different bonus numbers"]
    else []
  let dateWarnings :=
    if m.dateEarliest ≠ "" ∧ m.dateLatest ≠ "" then
      match jsDateParseDays m.dateEarliest, jsDateParseDays m.dateLatest with
      | some e, some l =>
        let daysDiff : ℚ := ((l - e : Int) : ℚ)
        if daysDiff < 30 then
          let d := daysDiff.floor
          [s!"Short date range: Only {d} days of data"]
        else []
      | _, _ => []
    else []
  completenessWarnings ++ diversityWarnings ++ bonusWarnings ++ dateWarnings

/-- `createValidationResult`. -/
def createValidationResult (isValid : Bool) (errors warnings : List String)
    (recordCount : Nat) (latestDate : String) (hasRequiredColumns : Bool)
    (dataQualityScore : Int) (m : MetricsState) : DataValidationResult :=
  { isValid := isValid
    errors := errors
    warnings := warnings
    recordCount := recordCount
    latestDate := latestDate
    hasRequiredColumns := hasRequiredColumns
    dataQualityScore := dataQualityScore
    validationMetrics := some
      { totalRows := m.totalRows
        validRows := m.validRows
        invalidRows := m.invalidRows
        completenessRatio :=
          if m.totalRows > 0 then (m.validRows : ℚ) / (m.totalRows : ℚ) else 0
        dateEarliest := m.dateEarliest
        dateLatest := m.dateLatest
        numberDiversity := m.numberFrequency.length
        bonusDiversity := m.bonusFrequency.length
        suspiciousPatterns := m.suspiciousPatterns.length } }

/-- Accumulator of the data-row loop in `validateData`. -/
structure RowLoopAcc where
  errors : List String
  warnings : List String
  score : Int
  recordCount : Nat
  dates : List String
  drawNumbers : List Int
  consecutiveErrors : Nat
  metrics : MetricsState
  stopped : Bool
deriving Repr

/-- The data-row loop of `validateData` (`for i = 1 .. lines.length-1`
with the five-consecutive-invalid-rows early break). -/
def validateRowsLoop (nowMs : Int) : List (Nat × String) → RowLoopAcc → RowLoopAcc
  | [], acc => acc
  | (i, rawLine) :: rest, acc =>
    if acc.stopped then acc
    else
      let line := jsTrim rawLine
      if line = "" then validateRowsLoop nowMs rest acc
      else
        let (rv, m') := validateDataRow line (i + 1) acc.metrics nowMs
        if rv.isValid then
          validateRowsLoop nowMs rest
            { acc with
              recordCount := acc.recordCount + 1
              metrics := { m' with validRows := m'.validRows + 1 }
              consecutiveErrors := 0
              dates := acc.dates ++
                (match rv.date with
                 | some d => if d ≠ "" then [d] else []
                 | none => [])
              drawNumbers := acc.drawNumbers ++
                (match rv.drawNumber with
                 | some d => if d ≠ 0 then [d] else []
                 | none => []) }
        else
          let consecutiveErrors := acc.consecutiveErrors + 1
          let acc' :=
            { acc with
              metrics := { m' with invalidRows := m'.invalidRows + 1 }
              errors := acc.errors ++ rv.errors
              warnings := acc.warnings ++ rv.warnings
              score := acc.score - rv.qualityPenalty
              consecutiveErrors := consecutiveErrors }
          if consecutiveErrors ≥ 5 then
            { acc' with
              errors := acc'.errors ++
                ["Too many consecutive invalid rows (5+). Data quality is too poor."]
              score := acc'.score - 20
              stopped := true }
          else validateRowsLoop nowMs rest acc'

/-- The critical-error filter of `validateData` (note: the substring
checks are case-sensitive JS `includes`). -/
def criticalErrorCount (errors : List String) : Nat :=
  (errors.filter (fun error =>
    jsIncludes error "missing required columns" ||
    jsIncludes error "empty" ||
    jsIncludes error "HTML content" ||
    jsIncludes error "Too many consecutive")).length

/-- The epoch time, in milliseconds, of `new Date(parseIsraeliDate s today)`
(`none` models `NaN`). -/
def reparsedDateMs (s : String) (today : String) : Option Int :=
  (jsDateParseDays (parseIsraeliDate s today)).map (· * 86400000)

/-- The comparator used to sort the collected dates: both sides go through
`parseIsraeliDate` again (which maps every already-ISO string to today's
date, so the comparator is 0 on this pipeline's outputs; a NaN comparator
result, possible only for degenerate re-parses, is modelled as 0, which
matches the no-reorder effect). -/
def dateSortCmp (today : String) (a b : String) : Int :=
  match reparsedDateMs a today, reparsedDateMs b today with
  | some ta, some tb => tb - ta
  | _, _ => 0

/-- `validateData`: the full validation pipeline.  `nowMs` models
`Date.now()`.  The surrounding TS `try`/`catch` is unreachable (no callee
throws) and is therefore not represented. -/
def validateData (csvContent : String) (nowMs : Int) : DataValidationResult :=
  let m0 := MetricsState.initial
  if jsTrim csvContent = "" then
    createValidationResult false ["CSV content is empty"] [] 0 "" false 0 m0
  else if jsIncludes csvContent "<!DOCTYPE html" || jsIncludes csvContent "<html" then
    createValidationResult false ["Received HTML content instead of CSV data"] [] 0 "" false (100 - 50) m0
  else
    let lines := (jsSplit csvContent '\n').filter (fun line => (jsTrim line).length > 0)
    let m0 := { m0 with totalRows := (lines.length : Int) - 1 }
    if lines.length < 2 then
      createValidationResult false ["CSV must contain at least a header and one data row"] [] 0 "" false (100 - 50) m0
    else
      let (headerOk, headerErrors, headerWarnings) := validateCSVHeader (lines.getD 0 "")
      let errors := if headerOk then [] else headerErrors
      let warnings := if headerWarnings.length > 0 then headerWarnings else []
      let score : Int := 100 - (if headerOk then 0 else 30) - (if headerWarnings.length > 0 then 5 else 0)
      let indexed := List.enumFrom 1 (lines.drop 1)
      let acc := validateRowsLoop nowMs indexed
        { errors := errors, warnings := warnings, score := score
          recordCount := 0, dates := [], drawNumbers := []
          consecutiveErrors := 0, metrics := m0, stopped := false }
      let warnings := acc.warnings ++ performAdvancedQualityChecks acc.metrics
      let today := todayStr nowMs
      let (latestDate, metrics, freshWarnings, freshPenalty) :
          String × MetricsState × List String × Int :=
        if acc.dates.length > 0 then
          let sortedDates := jsSortBy (dateSortCmp today) acc.dates
          let latestDate := sortedDates.getD 0 ""
          let metrics := { acc.metrics with
            dateLatest := latestDate
            dateEarliest := sortedDates.getD (sortedDates.length - 1) "" }
          match reparsedDateMs latestDate today with
          | some t =>
            let daysSinceLatest : ℚ := ((nowMs - t : Int) : ℚ) / 86400000
            if daysSinceLatest > 30 then
              let d := daysSinceLatest.floor
              (latestDate, metrics, [s!"Data appears outdated. Latest draw is {d} days old."], 10)
            else (latestDate, metrics, [], 0)
          | none => (latestDate, metrics, [], 0)
        else ("", acc.metrics, [], 0)
      let warnings := warnings ++ freshWarnings
      let score := acc.score - freshPenalty
      let (errors, warnings, score) :=
        if acc.drawNumbers.length > 1 then
          let (seqErrors, seqWarnings) := validateDrawNumberSequence acc.drawNumbers
          (acc.errors ++ seqErrors,
           warnings ++ seqWarnings,
           score - (if seqErrors.length > 0 then 15 else 0)
                 - (if seqWarnings.length > 0 then 5 else 0))
        else (acc.errors, warnings, score)
      let (sizeErrors, sizeWarnings, sizePenalty) := validateDatasetSize acc.recordCount
      let errors := errors ++ sizeErrors
      let warnings := warnings ++ sizeWarnings
      let score := score - (if sizeErrors.length > 0 then sizePenalty else 0)
                         - (if sizeWarnings.length > 0 then 5 else 0)
      let (anomalyWarnings, anomalyPenalty) := detectStatisticalAnomalies metrics
      let warnings := warnings ++ anomalyWarnings
      let score := score - (if anomalyWarnings.length > 0 then anomalyPenalty else 0)
      let score := max 0 score
      let isValid := criticalErrorCount errors = 0 &&
                     headerOk &&
                     score ≥ 50 &&
                     acc.recordCount ≥ 5
      createValidationResult isValid errors warnings acc.recordCount latestDate headerOk score metrics

/-! ### Warning system (`dataValidationWarningSystem.ts`) -/

inductive WarningType where
  | data_quality | completeness | suspicious_pattern | freshness | statistical_anomaly
deriving DecidableEq, Repr

inductive WarningSeverity where
  | low | medium | high | critical
deriving DecidableEq, Repr

/-- `ValidationWarning`. -/
structure ValidationWarning where
  type : WarningType
  severity : WarningSeverity
  message : String
  details : Option String
  recommendation : Option String
  qualityImpact : Int
deriving DecidableEq, Repr

/-- `DataQualityReport.summary`. -/
structure QualitySummary where
  totalIssues : Nat
  criticalIssues : Nat
  dataCompleteness : ℚ
  reliabilityScore : Int
deriving DecidableEq, Repr

/-- `DataQualityReport`. -/
structure DataQualityReport where
  overallScore : Int
  warnings : List ValidationWarning
  recommendations : List String
  canProceed : Bool
  requiresUserConfirmation : Bool
  summary : QualitySummary
deriving DecidableEq, Repr

/-- `getQualityImpact`. -/
def getQualityImpact (severity : WarningSeverity) : Int :=
  match severity with
  | .critical => 30
  | .high => 20
  | .medium => 10
  | .low => 5

/-- `createWarningFromError`. -/
def createWarningFromError (error : String) : ValidationWarning :=
  let (type, severity, recommendation) : WarningType × WarningSeverity × String :=
    if jsIncludes error "empty" || jsIncludes error "missing" then
      (.completeness, .critical, "Ensure the data source contains valid lottery data.")
    else if jsIncludes error "HTML" || jsIncludes error "format" then
      (.data_quality, .critical, "Verify the data source URL and format.")
    else if jsIncludes error "duplicate" || jsIncludes error "consecutive" then
      (.suspicious_pattern, .high, "Investigate potential data corruption or manipulation.")
    else if jsIncludes error "range" || jsIncludes error "invalid" then
      (.data_quality, .medium, "Check data source for formatting issues.")
    else (.data_quality, .high, "Review and correct the data source.")
  { type := type, severity := severity, message := error
    details := none, recommendation := some recommendation
    qualityImpact := getQualityImpact severity }

/-- `createWarningFromMessage`. -/
def createWarningFromMessage (warning : String) : ValidationWarning :=
  let (type, severity, recommendation) : WarningType × WarningSeverity × String :=
    if jsIncludes warning "outdated" || jsIncludes warning "days old" then
      (.freshness, .medium, "Consider updating to more recent data for better predictions.")
    else if jsIncludes warning "small" || jsIncludes warning "completeness" then
      (.completeness, .medium, "Obtain more historical data for improved accuracy.")
    else if jsIncludes warning "suspicious" || jsIncludes warning "pattern" then
      (.suspicious_pattern, .medium, "Review data source for potential issues.")
    else if jsIncludes warning "frequency" || jsIncludes warning "distribution" then
      (.statistical_anomaly, .low, "Statistical anomalies may indicate data quality issues.")
    else (.data_quality, .low, "Monitor data quality in future updates.")
  { type := type, severity := severity, message := warning
    details := none, recommendation := some recommendation
    qualityImpact := getQualityImpact severity }

/-- `analyzeDataCompleteness`. -/
def analyzeDataCompleteness (m : ValidationMetricsOut) : List ValidationWarning :=
  let pct := toFixed1 (m.completenessRatio * 100)
  let vr := m.validRows
  let tr := m.totalRows
  if m.completenessRatio < (1 / 2) then
    [{ type := .completeness, severity := .critical
       message := s!"Very low data completeness: Only {pct}% of rows are valid"
       details := some s!"{vr} valid rows out of {tr} total rows"
       recommendation := some "Data source appears severely corrupted. Consider using a different source."
       qualityImpact := 40 }]
  else if m.completenessRatio < (8 / 10) then
    [{ type := .completeness, severity := .high
       message := s!"Low data completeness: {pct}% of rows are valid"
       details := some s!"{vr} valid rows out of {tr} total rows"
       recommendation := some "Review data source for formatting or corruption issues."
       qualityImpact := 20 }]
  else if m.completenessRatio < (95 / 100) then
    let ir := m.invalidRows
    [{ type := .completeness, severity := .medium
       message := s!"Moderate data completeness: {pct}% of rows are valid"
       details := some s!"{ir} invalid rows found"
       recommendation := some "Some data quality issues detected. Monitor for patterns."
       qualityImpact := 10 }]
  else []

/-- `analyzeFreshness` (the `metrics.dateRange.latest` truthiness gate and
the `NaN > x` comparisons, which are all false for an unparseable date). -/
def analyzeFreshness (m : ValidationMetricsOut) (nowMs : Int) : List ValidationWarning :=
  if m.dateLatest ≠ "" then
    match jsDateParseDays m.dateLatest with
    | some z =>
      let daysSinceLatest : ℚ := ((nowMs - z * 86400000 : Int) : ℚ) / 86400000
      let d := daysSinceLatest.floor
      let latest := m.dateLatest
      if daysSinceLatest > 90 then
        [{ type := .freshness, severity := .high
           message := s!"Data is very outdated: Latest draw is {d} days old"
           details := some s!"Latest draw date: {latest}"
           recommendation := some "Update to more recent data for accurate predictions."
           qualityImpact := 25 }]
      else if daysSinceLatest > 30 then
        [{ type := .freshness, severity := .medium
           message := s!"Data is somewhat outdated: Latest draw is {d} days old"
           details := some s!"Latest draw date: {latest}"
           recommendation := some "Consider refreshing data for better accuracy."
           qualityImpact := 15 }]
      else if daysSinceLatest > 7 then
        [{ type := .freshness, severity := .low
           message := s!"Data is slightly outdated: Latest draw is {d} days old"
           details := some s!"Latest draw date: {latest}"
           recommendation := some "Data is reasonably fresh but could be updated."
           qualityImpact := 5 }]
      else []
    | none => []
  else []

/-- `analyzeStatisticalAnomalies` (warning-system version). -/
def analyzeStatisticalAnomaliesW (m : ValidationMetricsOut) : List ValidationWarning :=
  let nd := m.numberDiversity
  let bd := m.bonusDiversity
  (if nd < 25 then
    [{ type := .statistical_anomaly, severity := .medium
       message := s!"Low number diversity: Only {nd} different numbers found"
       details := some "Expected 30+ different numbers in a healthy dataset"
       recommendation := some "Verify data completeness and check for missing draws."
       qualityImpact := 15 }]
   else []) ++
  (if bd < 5 then
    [{ type := .statistical_anomaly, severity := .medium
       message := s!"Low bonus number diversity: Only {bd} different bonus numbers"
       details := some "Expected 6-7 different bonus numbers in a complete dataset"
       recommendation := some "Check for missing or corrupted bonus number data."
       qualityImpact := 10 }]
   else [])

/-- `analyzeSuspiciousPatterns` (the JS `patternRatio` is `NaN` when
`validRows = 0`, making both ratio comparisons false). -/
def analyzeSuspiciousPatterns (m : ValidationMetricsOut) : List ValidationWarning :=
  if m.suspiciousPatterns > 0 then
    let sp := m.suspiciousPatterns
    if m.validRows ≠ 0 ∧ (sp : ℚ) / (m.validRows : ℚ) > (2 / 10) then
      let pct := toFixed1 ((sp : ℚ) / (m.validRows : ℚ) * 100)
      [{ type := .suspicious_pattern, severity := .high
         message := s!"High number of suspicious patterns: {sp} patterns detected"
         details := some s!"{pct}% of valid rows show suspicious patterns"
         recommendation := some "Data may be artificially generated or corrupted. Verify authenticity."
         qualityImpact := 30 }]
    else if m.validRows ≠ 0 ∧ (sp : ℚ) / (m.validRows : ℚ) > (1 / 10) then
      let pct := toFixed1 ((sp : ℚ) / (m.validRows : ℚ) * 100)
      [{ type := .suspicious_pattern, severity := .medium
         message := s!"Moderate suspicious patterns: {sp} patterns detected"
         details := some s!"{pct}% of valid rows show suspicious patterns"
         recommendation := some "Monitor data source for potential quality issues."
         qualityImpact := 15 }]
    else if m.suspiciousPatterns > 2 then
      [{ type := .suspicious_pattern, severity := .low
         message := s!"Some suspicious patterns detected: {sp} patterns found"
         details := some "Patterns may be coincidental but worth monitoring"
         recommendation := some "Keep monitoring for pattern increases in future data."
         qualityImpact := 5 }]
    else []
  else []

/-- `generateRecommendations` (emoji prefixes of the source strings are
elided; none of these strings is ever branched on). -/
def generateRecommendations (warnings : List ValidationWarning)
    (validationResult : DataValidationResult) : List String :=
  let severities := warnings.map (·.severity)
  let warningTypes := warnings.map (·.type)
  (if severities.contains .critical then
    ["Critical data quality issues detected. Do not proceed without addressing these issues.",
     "Consider using a backup data source or manual data entry."]
   else []) ++
  (if severities.contains .high then
    ["Significant data quality concerns. Proceed with caution.",
     "Verify predictions against known results before relying on them."]
   else []) ++
  (if warningTypes.contains .completeness then
    ["Improve data completeness by obtaining more comprehensive historical data."] else []) ++
  (if warningTypes.contains .freshness then
    ["Update data source to include more recent lottery draws."] else []) ++
  (if warningTypes.contains .suspicious_pattern then
    ["Investigate data source authenticity and integrity."] else []) ++
  (if warningTypes.contains .statistical_anomaly then
    ["Review statistical distribution for potential data collection issues."] else []) ++
  (if validationResult.dataQualityScore < 70 then
    ["Consider implementing automated data quality monitoring.",
     "Set up data validation alerts for future updates."]
   else []) ++
  (if warnings.length = 0 then
    ["Data quality is excellent. No issues detected."]
   else if severities.all (· = .low) then
    ["Data quality is good with only minor issues detected."]
   else [])

/-- `calculateReliabilityScore`. -/
def calculateReliabilityScore (warnings : List ValidationWarning) (overallScore : Int) : Int :=
  let penalized := warnings.foldl
    (fun acc w =>
      acc - (match w.severity with
        | .critical => (25 : Int)
        | .high => 15
        | .medium => 8
        | .low => 3)) overallScore
  max 0 (min 100 penalized)

/-- `DataValidationWarningSystem.generateQualityReport`. -/
def generateQualityReport (validationResult : DataValidationResult)
    (recordCount : Nat) (totalRows : Int) (nowMs : Int) : DataQualityReport :=
  -- `validationResult.dataQualityScore || 0` is the identity on integers
  -- (0 maps to 0).
  let overallScore := validationResult.dataQualityScore
  let warnings :=
    validationResult.errors.map createWarningFromError ++
    validationResult.warnings.map createWarningFromMessage ++
    (match validationResult.validationMetrics with
     | some m =>
       analyzeDataCompleteness m ++ analyzeFreshness m nowMs ++
       analyzeStatisticalAnomaliesW m ++ analyzeSuspiciousPatterns m
     | none => [])
  let recommendations := generateRecommendations warnings validationResult
  let criticalIssues := (warnings.filter (·.severity = .critical)).length
  let dataCompleteness : ℚ :=
    if totalRows > 0 then (recordCount : ℚ) / (totalRows : ℚ) * 100 else 0
  let reliabilityScore := calculateReliabilityScore warnings overallScore
  let canProceed := criticalIssues = 0 && overallScore ≥ 40 && dataCompleteness ≥ 50
  let requiresUserConfirmation := !canProceed || warnings.any (·.severity = .high)
  { overallScore := overallScore
    warnings := warnings
    recommendations := recommendations
    canProceed := canProceed
    requiresUserConfirmation := requiresUserConfirmation
    summary :=
      { totalIssues := warnings.length
        criticalIssues := criticalIssues
        dataCompleteness := dataCompleteness
        reliabilityScore := reliabilityScore } }

/-- `DataValidationWarningSystem.requiresUserConfirmation` (the static
method deciding whether the user must confirm before proceeding). -/
def requiresUserConfirmationCheck (report : DataQualityReport) : Bool :=
  report.requiresUserConfirmation ||
  report.summary.criticalIssues > 0 ||
  report.overallScore < 60

/-! ### Error classifier and retry controller -/

/-- A JS `Error` as seen by the retry loop. -/
structure JsError where
  name : String
  message : String
deriving DecidableEq, Repr

/-- `categorizeError`. -/
def categorizeError (e : JsError) : DataRefreshErrorType :=
  let message := jsToLower e.message
  if jsIncludes message "timeout" || jsIncludes message "aborted" then .timeout_error
  else if jsIncludes message "cors" || jsIncludes message "cross-origin" then .cors_error
  else if jsIncludes message "500" || jsIncludes message "502" ||
          jsIncludes message "503" || jsIncludes message "504" then .server_error
  else if jsIncludes message "network" || jsIncludes message "fetch" ||
          jsIncludes message "connection" then .network_error
  else .unknown_error

/-- `calculateRetryTime` (seconds). -/
def calculateRetryTime (errorType : DataRefreshErrorType) : Int :=
  match errorType with
  | .network_error => 30
  | .timeout_error => 60
  | .server_error => 300
  | .cors_error => 120
  | _ => 60

/-- `createError`. -/
def createError (type : DataRefreshErrorType) (message : String)
    (details : Option String) (retryable : Bool) : DataRefreshError :=
  { type := type
    message := message
    details := details
    retryable := retryable
    estimatedRetryTime := if retryable then some (calculateRetryTime type) else none }

/-- `calculateBackoffDelay` (ms); `jitter ∈ [0,1)` models `Math.random()`. -/
def calculateBackoffDelay (cfg : DataRefreshConfig) (attempt : Nat)
    (errorType : DataRefreshErrorType) (jitter : ℚ) : ℚ :=
  let baseDelay :=
    cfg.retryDelay * (match errorType with
      | .timeout_error => 2
      | .server_error => 3
      | .cors_error => (3 / 2)
      | _ => 1)
  let exponentialDelay := baseDelay * 2 ^ (attempt - 1)
  min (exponentialDelay + jitter * (3 / 10) * exponentialDelay) 30000

/-- `getUserFriendlyErrorMessage`. -/
def getUserFriendlyErrorMessage (error : DataRefreshError) : String :=
  let base :=
    match error.type with
    | .network_error => "Unable to connect to the lottery data source. Please check your internet connection."
    | .validation_error => "The downloaded data appears to be incomplete or corrupted."
    | .processing_error => "There was an issue processing the lottery data."
    | .timeout_error => "The request took too long to complete. The server may be busy."
    | .cors_error => "Access to the lottery data source is currently restricted."
    | .server_error => "The lottery data server is currently unavailable."
    | .unknown_error => "An unexpected error occurred while refreshing data."
  match error.estimatedRetryTime with
  | some t =>
    if error.retryable ∧ t ≠ 0 then
      let timeText :=
        if t < 60 then
          s!"{t} seconds"
        else
          let minutes := Int.ediv (t + 59) 60  -- Math.ceil(t / 60)
          s!"{minutes} minutes"
      base ++ s!" You can try again in approximately {timeText}."
    else base
  | none => base

/-- Result record of `downloadWithEnhancedRetry`. -/
structure DownloadOutcome where
  success : Bool
  csvContent : Option String
  error : Option String
  errorDetails : Option DataRefreshError
  retryAttempts : Option Nat
deriving DecidableEq, Repr

/-- The `lastError?.message || 'Unknown error'` expression. -/
def lastErrorMessage (lastError : Option JsError) : String :=
  match lastError with
  | some e => if e.message = "" then "Unknown error" else e.message
  | none => "Unknown error"

/-- The loop body of `downloadWithEnhancedRetry`.  `fetch n` is the result
of the `n`-th (0-based) invocation of the fetch collaborator
(`fetchCSVFromSourceWithTimeout`); the returned `Nat` counts how many
times the collaborator was invoked.  `fuel` is the number of attempts
still available; the loop runs `attempt = 1 .. maxRetries`. -/
def downloadRetryGo (fetch : Nat → Except JsError String) (cfg : DataRefreshConfig) :
    Nat → Nat → Option JsError → DataRefreshErrorType → DownloadOutcome × Nat
  | 0, attempt, lastError, errorType =>
    -- attempts exhausted: build the final failure
    let k := cfg.maxRetries
    let lastMsg := lastErrorMessage lastError
    ({ success := false
       csvContent := none
       error := s!"All {k} download attempts failed. Last error: {lastMsg}"
       errorDetails := some (createError errorType
         s!"All {k} download attempts failed"
         (lastError.map (·.message)) true)
       retryAttempts := some cfg.maxRetries }, attempt - 1)
  | fuel + 1, attempt, _lastError, _errorType =>
    match fetch (attempt - 1) with
    | .ok csvContent =>
      if csvContent.length > 0 then
        ({ success := true
           csvContent := some csvContent
           error := none
           errorDetails := none
           retryAttempts := some (attempt - 1) }, attempt)
      else
        let e : JsError := { name := "Error", message := "Empty or invalid CSV content received" }
        downloadRetryGo fetch cfg fuel (attempt + 1) (some e) (categorizeError e)
    | .error e =>
      downloadRetryGo fetch cfg fuel (attempt + 1) (some e) (categorizeError e)

/-- `downloadWithEnhancedRetry` (the backoff sleeps between failed
attempts have no observable effect in the model). -/
def downloadWithEnhancedRetry (fetch : Nat → Except JsError String)
    (cfg : DataRefreshConfig) : DownloadOutcome × Nat :=
  downloadRetryGo fetch cfg cfg.maxRetries 1 none .network_error

/-! ### Cache manager -/

/-- The JSON object `{drawNumber, date, numbers, bonus}` hashed by
`calculateDataHash` (jackpot is not part of the digest). -/
def hashFieldsJson (r : LotteryRecord) : JVal :=
  .jobj [("drawNumber", .jnum (r.drawNumber : ℚ)),
         ("date", .jstr r.date),
         ("numbers", .jarr (r.numbers.map (fun n : Int => .jnum (n : ℚ)))),
         ("bonus", .jnum (r.bonus : ℚ))]

/-- One step of the JS string-hash loop:
`hash = ((hash << 5) - hash) + char; hash = hash & hash`. -/
def hashStep (hash : Int) (c : Char) : Int :=
  toInt32 (toInt32 (hash * 32) - hash + (c.toNat : Int))

/-- The left fold of `hashStep` over a character list, with the
accumulator forced to a constructor at every step (the match keeps kernel
reduction shallow; the value is exactly `l.foldl hashStep h`). -/
def hashFoldChars : Int → List Char → Int
  | h, [] => h
  | h, c :: cs =>
    match hashStep h c with
    | .ofNat n => hashFoldChars (.ofNat n) cs
    | .negSucc n => hashFoldChars (.negSucc n) cs

/-- `calculateDataHash`: the 32-bit string hash of the canonical JSON of
the record list, rendered in base 36. -/
def calculateDataHash (data : List LotteryRecord) : String :=
  let dataString := jsonStringify (.jarr (data.map hashFieldsJson))
  intToBase36 (hashFoldChars 0 dataString.data)

/-- The short-key JSON object written by `compressData`
(`{d, dt, n, b, j}`; an `undefined` jackpot omits the key, exactly as
`JSON.stringify` drops `undefined` properties). -/
def compressRecordJson (r : LotteryRecord) : JVal :=
  .jobj ([("d", .jnum (r.drawNumber : ℚ)),
          ("dt", .jstr r.date),
          ("n", .jarr (r.numbers.map (fun n : Int => .jnum (n : ℚ)))),
          ("b", .jnum (r.bonus : ℚ))] ++
         (match r.jackpot with
          | some j => [("j", .jnum (j : ℚ))]
          | none => []))

/-- `compressData` (the stored JSON value; its serialized form is
`jsonStringify` of this). -/
def compressData (data : List LotteryRecord) : JVal :=
  .jarr (data.map compressRecordJson)

/-- The full-key JSON object of a record (`JSON.stringify` of the record
itself, used for the uncompressed size and the uncompressed store path). -/
def fullRecordJson (r : LotteryRecord) : JVal :=
  .jobj ([("date", .jstr r.date),
          ("drawNumber", .jnum (r.drawNumber : ℚ)),
          ("numbers", .jarr (r.numbers.map (fun n : Int => .jnum (n : ℚ)))),
          ("bonus", .jnum (r.bonus : ℚ))] ++
         (match r.jackpot with
          | some j => [("j" ++ "ackpot", .jnum (j : ℚ))]
          | none => []))

/-- Decode one short-key object back to a record; `none` models the
garbage records JS would produce from a malformed item (undefined
fields), which downstream integrity checks reject. -/
def decompressRecord (v : JVal) : Option LotteryRecord :=
  match (v.getField "d").bind JVal.asInt,
        (v.getField "dt").bind JVal.asStr,
        v.getField "n",
        (v.getField "b").bind JVal.asInt with
  | some d, some dt, some (.jarr ns), some b =>
    (ns.mapM JVal.asInt).map (fun numbers =>
      { date := dt, drawNumber := d, numbers := numbers, bonus := b
        jackpot := (v.getField "j").bind JVal.asInt })
  | _, _, _, _ => none

/-- Decode one full-key object (the uncompressed-cache read path). -/
def decodeFullRecord (v : JVal) : Option LotteryRecord :=
  match (v.getField "drawNumber").bind JVal.asInt,
        (v.getField "date").bind JVal.asStr,
        v.getField "numbers",
        (v.getField "bonus").bind JVal.asInt with
  | some d, some dt, some (.jarr ns), some b =>
    (ns.mapM JVal.asInt).map (fun numbers =>
      { date := dt, drawNumber := d, numbers := numbers, bonus := b
        jackpot := ((v.getField ("j" ++ "ackpot")).bind JVal.asInt) })
  | _, _, _, _ => none

/-- `decompressData`: if the parsed array is non-empty and its first item
has a `d` key, map the short keys back; otherwise return the parsed value
as-is (modelled by the full-key decoding; `none` models the garbage /
throwing paths that the caller's `catch` turns into an empty cache). -/
def decompressData (v : JVal) : Option (List LotteryRecord) :=
  match v with
  | .jarr items =>
    match items with
    | first :: _ =>
      if (first.getField "d").isSome then items.mapM decompressRecord
      else items.mapM decodeFullRecord
    | [] => some []
  | _ => none

/-- JSON encoding of the cache metadata (an `undefined` compression ratio
omits the key under `JSON.stringify`). -/
def metadataJson (md : CacheMetadata) : JVal :=
  .jobj ([("version", .jstr md.version),
          ("timestamp", .jnum (md.timestamp : ℚ)),
          ("recordCount", .jnum ((md.recordCount : Int) : ℚ)),
          ("dataHash", .jstr md.dataHash)] ++
         (match md.compressionRatio with
          | some r => [("compressionRatio", .jnum r)]
          | none => []) ++
         [("lastAccessTime", .jnum (md.lastAccessTime : ℚ))])

/-- Parse the cache metadata back from its JSON value. -/
def metadataOfJson (v : JVal) : Option CacheMetadata :=
  match (v.getField "version").bind JVal.asStr,
        (v.getField "timestamp").bind JVal.asInt,
        (v.getField "recordCount").bind JVal.asInt,
        (v.getField "dataHash").bind JVal.asStr,
        (v.getField "lastAccessTime").bind JVal.asInt with
  | some ver, some ts, some rc, some h, some lat =>
    some { version := ver, timestamp := ts, recordCount := rc.toNat
           dataHash := h
           compressionRatio := (v.getField "compressionRatio").bind JVal.asRat
           lastAccessTime := lat }
  | _, _, _, _, _ => none

/-- `checkLocalStorageSpace`: usage against a conservative fixed 4MB
budget, requiring a 20% headroom (`requiredBytes * 1.2`). -/
def checkLocalStorageSpace (storage : JsStorage) (requiredBytes : Nat) : Bool :=
  let currentUsage := storageUsage storage
  let storageLimit := 4 * 1024 * 1024
  let availableSpace : Int := (storageLimit : Int) - (currentUsage : Int)
  (availableSpace : ℚ) ≥ (requiredBytes : ℚ) * (6 / 5)

/-- `cleanupOldCacheEntries`: drop every key starting with `lottery-` or
`cache-` or containing `old-data`. -/
def cleanupOldCacheEntries (storage : JsStorage) : JsStorage :=
  { storage with entries := storage.entries.filter (fun e =>
      !(charsLead "lottery-".data e.1.data ||
        charsLead "cache-".data e.1.data ||
        jsIncludes e.1 "old-data")) }

/-- `initializeEmptyCache` (in-memory fields only). -/
def initializeEmptyCache (st : ServiceState) : ServiceState :=
  { st with cachedData := [], lastUpdateTime := none, cacheMetadata := none }

/-- `clearCacheEnhanced`: clear the in-memory mirror and remove current
and legacy storage keys. -/
def clearCacheEnhanced (st : ServiceState) : ServiceState :=
  let storage := storageRemoveItem (storageRemoveItem (storageRemoveItem
    (storageRemoveItem st.storage CACHE_KEY) METADATA_KEY)
    "lottery-data-cache") "lottery-data-timestamp"
  { st with cachedData := [], lastUpdateTime := none, cacheMetadata := none
            storage := storage }

/-- `getDataAge` (hours; `Infinity` when no update has ever happened). -/
def getDataAge (st : ServiceState) (nowMs : Int) : JsHours :=
  match st.lastUpdateTime with
  | none => .infinity
  | some t => .finite (((nowMs - t : Int) : ℚ) / (1000 * 60 * 60))

/-- `isCachedDataFresh`. -/
def isCachedDataFresh (st : ServiceState) (nowMs : Int) : Bool :=
  match st.lastUpdateTime with
  | none => false
  | some t =>
    if st.cachedData.length = 0 then false
    else ((nowMs - t : Int) : ℚ) / (1000 * 60 * 60) < st.config.cacheTimeout

/-- The dataset actually persisted by `saveCachedDataEnhanced` (trimmed to
the cache size cap). -/
def saveDataToCache (st : ServiceState) : List LotteryRecord :=
  if st.cacheConfig.memoryOptimization ∧ st.cachedData.length > st.cacheConfig.maxCacheSize then
    st.cachedData.take st.cacheConfig.maxCacheSize
  else st.cachedData

/-- The JSON value stored under the data key, and the compression ratio. -/
def saveDataToStore (st : ServiceState) : JVal × Option ℚ :=
  let dataToCache := saveDataToCache st
  if st.cacheConfig.compressionEnabled then
    let originalSize := jsStrLen (jsonStringify (.jarr (dataToCache.map fullRecordJson)))
    let stored := compressData dataToCache
    let compressedSize := jsStrLen (jsonStringify stored)
    (stored, some ((compressedSize : ℚ) / (originalSize : ℚ)))
  else (.jarr (dataToCache.map fullRecordJson), none)

/-- The metadata record built by `saveCachedDataEnhanced`. -/
def saveMetadata (st : ServiceState) (nowMs : Int) : CacheMetadata :=
  let dataToCache := saveDataToCache st
  { version := CACHE_VERSION
    timestamp := st.lastUpdateTime.getD nowMs
    recordCount := dataToCache.length
    dataHash := calculateDataHash dataToCache
    compressionRatio := (saveDataToStore st).2
    lastAccessTime := nowMs }

/-- The byte-size estimate checked against the storage budget. -/
def saveEstimatedSize (st : ServiceState) (nowMs : Int) : Nat :=
  jsStrLen (jsonStringify (saveDataToStore st).1) +
  jsStrLen (jsonStringify (metadataJson (saveMetadata st nowMs)))

/-- `saveCachedDataEnhanced`.  `fuel` bounds the depth of the recursive
quota-retry call (the code can recurse at most once, because the retry
dataset has at most 100 records).  All exceptions are caught internally:
the function is total on the service state. -/
def saveCachedDataEnhanced : Nat → ServiceState → Int → ServiceState
  | 0, st, _ => st
  | fuel + 1, st, nowMs =>
    if st.cachedData.length = 0 then st
    else
      let dataToStore := (saveDataToStore st).1
      let metadata := saveMetadata st nowMs
      let estimatedSize := saveEstimatedSize st nowMs
      -- proactive space check, with one cleanup retry (the cleanup
      -- mutates the storage even when the retry still fails)
      let st :=
        if checkLocalStorageSpace st.storage estimatedSize then st
        else { st with storage := cleanupOldCacheEntries st.storage }
      let spaceOk := checkLocalStorageSpace st.storage estimatedSize
      if !spaceOk then st
      else
        match storageSetItem st.storage CACHE_KEY dataToStore with
        | .ok storage1 =>
          match storageSetItem storage1 METADATA_KEY (metadataJson metadata) with
          | .ok storage2 =>
            { st with storage := storage2, cacheMetadata := some metadata }
          | .error msg =>
            -- catch block for a failure writing the metadata
            if jsIncludes msg "QuotaExceededError" then
              let st := { st with storage := storage1 }
              let st := clearCacheEnhanced st
              -- NOTE: `clearCacheEnhanced` has already emptied
              -- `this.cachedData`, so this length test reads 0
              if st.cachedData.length > 100 then
                let originalData := st.cachedData
                let st := saveCachedDataEnhanced fuel
                  { st with cachedData := st.cachedData.take 100 } nowMs
                { st with cachedData := originalData }
              else st
            else { st with storage := storage1 }
        | .error msg =>
          -- catch block for a failure writing the data blob
          if jsIncludes msg "QuotaExceededError" then
            let st := clearCacheEnhanced st
            if st.cachedData.length > 100 then
              let originalData := st.cachedData
              let st := saveCachedDataEnhanced fuel
                { st with cachedData := st.cachedData.take 100 } nowMs
              { st with cachedData := originalData }
            else st
          else st

/-- `updateCacheAccessTime`: rewrite the metadata with a fresh access
time; write failures are swallowed. -/
def updateCacheAccessTime (st : ServiceState) (nowMs : Int) : ServiceState :=
  match st.cacheMetadata with
  | some md =>
    let md' := { md with lastAccessTime := nowMs }
    let st := { st with cacheMetadata := some md' }
    match storageSetItem st.storage METADATA_KEY (metadataJson md') with
    | .ok storage' => { st with storage := storage' }
    | .error _ => st
  | none => st

/-- The JS truthiness test `metadata.compressionRatio` on an optional
number: false for `undefined` and for `0`. -/
def ratioTruthy (r : Option ℚ) : Bool :=
  match r with
  | some q => q ≠ 0
  | none => false

/-- `loadCachedDataEnhanced`.  Parse / decompress failures are routed to
the `catch` (`initializeEmptyCache`), exactly as a thrown `JSON.parse` /
`decompressData` error would be. -/
def loadCachedDataEnhanced (st : ServiceState) (nowMs : Int) : ServiceState :=
  match storageGetItem st.storage METADATA_KEY with
  | none => initializeEmptyCache st
  | some metaV =>
    match metadataOfJson metaV with
    | none => initializeEmptyCache st
    | some metadata =>
      if metadata.version ≠ CACHE_VERSION then clearCacheEnhanced st
      else
        let cacheAgeHours : ℚ := ((nowMs - metadata.timestamp : Int) : ℚ) / (1000 * 60 * 60)
        if cacheAgeHours > st.config.cacheTimeout then clearCacheEnhanced st
        else
          match storageGetItem st.storage CACHE_KEY with
          | none => clearCacheEnhanced st
          | some dataV =>
            let parsed : Option (List LotteryRecord) :=
              if st.cacheConfig.compressionEnabled ∧ ratioTruthy metadata.compressionRatio then
                decompressData dataV
              else
                match dataV with
                | .jarr items => items.mapM decodeFullRecord
                | _ => none
            match parsed with
            | none => initializeEmptyCache st
            | some parsedData =>
              if calculateDataHash parsedData ≠ metadata.dataHash then
                clearCacheEnhanced st
              else
                let parsedData :=
                  if st.cacheConfig.memoryOptimization ∧
                     parsedData.length > st.cacheConfig.maxCacheSize then
                    parsedData.take st.cacheConfig.maxCacheSize
                  else parsedData
                let st := { st with
                  cachedData := parsedData
                  lastUpdateTime := some metadata.timestamp
                  cacheMetadata := some { metadata with lastAccessTime := nowMs } }
                updateCacheAccessTime st nowMs

/-! ### Refresh orchestrator -/

/-- `createFallbackResult`: a degraded success when fallback is allowed
and cached data exists, otherwise a complete failure. -/
def createFallbackResult (errorDetails : DataRefreshError) (retryAttempts : Nat)
    (st : ServiceState) (nowMs : Int) : DataRefreshResult :=
  if st.config.fallbackToCachedData ∧ st.cachedData.length > 0 then
    { success := true
      data := some st.cachedData
      error := some (getUserFriendlyErrorMessage errorDetails)
      errorDetails := some errorDetails
      fromCache := true
      dataAge := getDataAge st nowMs
      recordCount := st.cachedData.length
      retryAttempts := some retryAttempts
      fallbackUsed := some true }
  else
    { success := false
      data := none
      error := some (getUserFriendlyErrorMessage errorDetails)
      errorDetails := some errorDetails
      fromCache := false
      dataAge := getDataAge st nowMs
      recordCount := 0
      retryAttempts := some retryAttempts
      fallbackUsed := some false }

/-- The `downloadResult.error || 'Unknown download error'` expression. -/
def downloadErrorText (e : Option String) : String :=
  match e with
  | some s => if s = "" then "Unknown download error" else s
  | none => "Unknown download error"

/-- `downloadLatestData`: the top-level refresh orchestration.  The fetch
collaborator is `fetch`; every one of its failures arrives as an `Except`
error and is handled below, and no model function throws, so the TS outer
`catch` is unreachable and the orchestrator is a total function returning
a result and the updated service state. -/
def downloadLatestData (fetch : Nat → Except JsError String)
    (st : ServiceState) (nowMs : Int) : DataRefreshResult × ServiceState :=
  if isCachedDataFresh st nowMs then
    ({ success := true
       data := some st.cachedData
       error := none
       errorDetails := none
       fromCache := true
       dataAge := getDataAge st nowMs
       recordCount := st.cachedData.length
       retryAttempts := some 0
       fallbackUsed := some false }, st)
  else
    let downloadResult := (downloadWithEnhancedRetry fetch st.config).1
    let retryAttempts := downloadResult.retryAttempts.getD 0
    if downloadResult.success ∧ downloadResult.csvContent.getD "" ≠ "" then
      let csvContent := downloadResult.csvContent.getD ""
      let validationResult := validateData csvContent nowMs
      if validationResult.isValid then
        let parsedData := parseCSVContent csvContent st.cacheConfig (todayStr nowMs)
        if parsedData.length > 0 then
          let st1 := { st with cachedData := parsedData, lastUpdateTime := some nowMs }
          let st2 := saveCachedDataEnhanced 2 st1 nowMs
          ({ success := true
             data := some parsedData
             error := none
             errorDetails := none
             fromCache := false
             dataAge := .finite 0
             recordCount := parsedData.length
             retryAttempts := some retryAttempts
             fallbackUsed := some false }, st2)
        else
          (createFallbackResult
            (createError .processing_error "No valid data records found after parsing"
              (some "The downloaded data contained no usable lottery results") false)
            retryAttempts st nowMs, st)
      else
        (createFallbackResult
          (createError .validation_error "Downloaded data failed quality checks"
            (some (String.intercalate "; " validationResult.errors)) false)
          retryAttempts st nowMs, st)
    else
      let errorDetails := downloadResult.errorDetails.getD
        (createError .network_error "Download failed"
          (some (downloadErrorText downloadResult.error)) true)
      (createFallbackResult errorDetails retryAttempts st nowMs, st)

/-! ### Shared helper lemmas -/

/-- Both branches of `createFallbackResult` attach the structured error. -/
theorem createFallbackResult_errorDetails (err : DataRefreshError) (retry : Nat)
    (st : ServiceState) (nowMs : Int) :
    (createFallbackResult err retry st nowMs).errorDetails = some err := by
  unfold createFallbackResult
  split <;> rfl

/-! ### C10: `getDataAge` returns Infinity with no update timestamp -/

/-- C10: when no successful load or save has ever occurred
(`lastUpdateTime` unset), `getDataAge()` returns `Infinity`, and a
hard-failure fallback result built with no cache reports
`dataAge = Infinity` together with `success = false`. -/
theorem dataAge_infinity_when_never_updated (st : ServiceState) (nowMs : Int)
    (err : DataRefreshError) (retry : Nat)
    (hNoUpdate : st.lastUpdateTime = none) (hNoCache : st.cachedData = []) :
    getDataAge st nowMs = JsHours.infinity ∧
    (createFallbackResult err retry st nowMs).dataAge = JsHours.infinity ∧
    (createFallbackResult err retry st nowMs).success = false := by
  have hage : getDataAge st nowMs = JsHours.infinity := by
    unfold getDataAge
    rw [hNoUpdate]
  refine ⟨hage, ?_, ?_⟩ <;>
  · unfold createFallbackResult
    simp [hNoCache, hage]

/-- Witness for C10 at a concrete never-updated, empty-cache state. -/
theorem dataAge_infinity_when_never_updated_witness :
    getDataAge
      { config := DEFAULT_CONFIG, cacheConfig := defaultCacheConfig
        lastUpdateTime := none, cachedData := [], cacheMetadata := none
        storage := { entries := [], quota := none } } 500 = JsHours.infinity ∧
    (createFallbackResult (createError .network_error "Download failed" none true) 3
      { config := DEFAULT_CONFIG, cacheConfig := defaultCacheConfig
        lastUpdateTime := none, cachedData := [], cacheMetadata := none
        storage := { entries := [], quota := none } } 500).dataAge = JsHours.infinity ∧
    (createFallbackResult (createError .network_error "Download failed" none true) 3
      { config := DEFAULT_CONFIG, cacheConfig := defaultCacheConfig
        lastUpdateTime := none, cachedData := [], cacheMetadata := none
        storage := { entries := [], quota := none } } 500).success = false :=
  dataAge_infinity_when_never_updated _ 500 _ 3 rfl rfl

/-! ### C1: shape of the fallback result -/

/-- C1: for every classified refresh error reaching the fallback step —
with fallback enabled and a non-empty in-memory cache, the result is a
degraded success carrying the cached list, its length and the error
message; with an empty cache or fallback disabled, the result is a
failure with `recordCount = 0`, `fromCache = false` and the same error. -/
theorem createFallbackResult_spec (err : DataRefreshError) (retry : Nat)
    (st : ServiceState) (nowMs : Int) :
    (st.config.fallbackToCachedData = true → st.cachedData ≠ [] →
      createFallbackResult err retry st nowMs =
        { success := true
          data := some st.cachedData
          error := some (getUserFriendlyErrorMessage err)
          errorDetails := some err
          fromCache := true
          dataAge := getDataAge st nowMs
          recordCount := st.cachedData.length
          retryAttempts := some retry
          fallbackUsed := some true }) ∧
    ((st.cachedData = [] ∨ st.config.fallbackToCachedData = false) →
      createFallbackResult err retry st nowMs =
        { success := false
          data := none
          error := some (getUserFriendlyErrorMessage err)
          errorDetails := some err
          fromCache := false
          dataAge := getDataAge st nowMs
          recordCount := 0
          retryAttempts := some retry
          fallbackUsed := some false }) := by
  constructor
  · intro hfb hne
    unfold createFallbackResult
    rw [if_pos]
    exact ⟨hfb, List.length_pos.mpr hne⟩
  · intro h
    unfold createFallbackResult
    rw [if_neg]
    rcases h with h | h
    · simp [h]
    · simp [h]

/-- Witness for C1: a state with two cached records takes the degraded
success branch; an empty state takes the failure branch. -/
theorem createFallbackResult_spec_witness :
    createFallbackResult (createError .network_error "Download failed" none true) 3
      { config := DEFAULT_CONFIG, cacheConfig := defaultCacheConfig
        lastUpdateTime := some 0
        cachedData := [{ date := "2024-01-01", drawNumber := 2, numbers := [1, 2, 3, 4, 5, 6], bonus := 1, jackpot := none },
                       { date := "2024-01-01", drawNumber := 1, numbers := [1, 2, 3, 4, 5, 6], bonus := 2, jackpot := none }]
        cacheMetadata := none
        storage := { entries := [], quota := none } } 3600000 =
      { success := true
        data := some [{ date := "2024-01-01", drawNumber := 2, numbers := [1, 2, 3, 4, 5, 6], bonus := 1, jackpot := none },
                      { date := "2024-01-01", drawNumber := 1, numbers := [1, 2, 3, 4, 5, 6], bonus := 2, jackpot := none }]
        error := some (getUserFriendlyErrorMessage (createError .network_error "Download failed" none true))
        errorDetails := some (createError .network_error "Download failed" none true)
        fromCache := true
        dataAge := JsHours.finite 1
        recordCount := 2
        retryAttempts := some 3
        fallbackUsed := some true } := by
  have h := (createFallbackResult_spec
    (createError .network_error "Download failed" none true) 3
    { config := DEFAULT_CONFIG, cacheConfig := defaultCacheConfig
      lastUpdateTime := some 0
      cachedData := [{ date := "2024-01-01", drawNumber := 2, numbers := [1, 2, 3, 4, 5, 6], bonus := 1, jackpot := none },
                     { date := "2024-01-01", drawNumber := 1, numbers := [1, 2, 3, 4, 5, 6], bonus := 2, jackpot := none }]
      cacheMetadata := none
      storage := { entries := [], quota := none } } 3600000).1 rfl (by decide)
  rw [h]
  with_unfolding_all rfl

/-! ### C3: retry budget and final failure shape -/

/-- With a fetch that fails on every invocation, the retry loop from
`attempt` with `fuel` remaining attempts lands in the exhausted case with
the last error being the one of the final attempt. -/
theorem downloadRetryGo_all_fail (fetch : Nat → Except JsError String)
    (cfg : DataRefreshConfig) (e : Nat → JsError)
    (hfail : ∀ n, fetch n = .error (e n)) :
    ∀ fuel attempt lastError errorType, 1 ≤ fuel → 1 ≤ attempt →
    downloadRetryGo fetch cfg fuel attempt lastError errorType =
      downloadRetryGo fetch cfg 0 (attempt + fuel)
        (some (e (attempt + fuel - 2))) (categorizeError (e (attempt + fuel - 2))) := by
  intro fuel
  induction fuel with
  | zero => intro attempt lastError errorType h1 _; omega
  | succ k ih =>
    intro attempt lastError errorType _ h2
    have hstep : downloadRetryGo fetch cfg (k + 1) attempt lastError errorType =
        downloadRetryGo fetch cfg k (attempt + 1) (some (e (attempt - 1)))
          (categorizeError (e (attempt - 1))) := by
      conv_lhs => rw [downloadRetryGo]
      rw [hfail (attempt - 1)]
    rw [hstep]
    rcases Nat.eq_zero_or_pos k with hk | hk
    · subst hk
      have h3 : attempt + (0 + 1) - 2 = attempt - 1 := by omega
      have h4 : attempt + (0 + 1) = attempt + 1 := by omega
      rw [h3, h4]
    · rw [ih (attempt + 1) (some (e (attempt - 1))) (categorizeError (e (attempt - 1))) hk (by omega)]
      have h3 : attempt + 1 + k = attempt + (k + 1) := by omega
      rw [h3]

/-- C3: with `maxRetries = K ≥ 1` and a fetch collaborator that fails on
every invocation, `downloadWithEnhancedRetry` invokes the fetch exactly K
times, reports `retryAttempts = K`, and its error details carry the
classification of the last observed error with `retryable = true`. -/
theorem retry_budget_spec (fetch : Nat → Except JsError String)
    (cfg : DataRefreshConfig) (e : Nat → JsError)
    (hfail : ∀ n, fetch n = .error (e n)) (hK : 1 ≤ cfg.maxRetries) :
    (downloadWithEnhancedRetry fetch cfg).2 = cfg.maxRetries ∧
    (downloadWithEnhancedRetry fetch cfg).1.success = false ∧
    (downloadWithEnhancedRetry fetch cfg).1.retryAttempts = some cfg.maxRetries ∧
    ∃ d, (downloadWithEnhancedRetry fetch cfg).1.errorDetails = some d ∧
      d.type = categorizeError (e (cfg.maxRetries - 1)) ∧
      d.retryable = true := by
  unfold downloadWithEnhancedRetry
  rw [downloadRetryGo_all_fail fetch cfg e hfail cfg.maxRetries 1 none .network_error hK (by omega)]
  have h2 : 1 + cfg.maxRetries - 2 = cfg.maxRetries - 1 := by omega
  have h1 : 1 + cfg.maxRetries - 1 = cfg.maxRetries := by omega
  unfold downloadRetryGo
  rw [h2, h1]
  exact ⟨rfl, rfl, rfl, ⟨_, rfl, rfl, rfl⟩⟩

/-- Witness for C3: three timeouts with the default configuration. -/
theorem retry_budget_spec_witness :
    (downloadWithEnhancedRetry
      (fun _ => .error { name := "Error", message := "Request timeout - the server took too long to respond" })
      DEFAULT_CONFIG).2 = DEFAULT_CONFIG.maxRetries ∧
    (downloadWithEnhancedRetry
      (fun _ => .error { name := "Error", message := "Request timeout - the server took too long to respond" })
      DEFAULT_CONFIG).1.success = false ∧
    (downloadWithEnhancedRetry
      (fun _ => .error { name := "Error", message := "Request timeout - the server took too long to respond" })
      DEFAULT_CONFIG).1.retryAttempts = some DEFAULT_CONFIG.maxRetries ∧
    ∃ d, (downloadWithEnhancedRetry
      (fun _ => .error { name := "Error", message := "Request timeout - the server took too long to respond" })
      DEFAULT_CONFIG).1.errorDetails = some d ∧
      d.type = categorizeError ((fun _ => ({ name := "Error", message := "Request timeout - the server took too long to respond" } : JsError)) (DEFAULT_CONFIG.maxRetries - 1)) ∧
      d.retryable = true :=
  retry_budget_spec
    (fun _ => .error { name := "Error", message := "Request timeout - the server took too long to respond" })
    DEFAULT_CONFIG
    (fun _ => { name := "Error", message := "Request timeout - the server took too long to respond" })
    (fun _ => rfl) (by decide)

/-! ### C2: the orchestrator never lets a failure escape unstructured -/

/-- Every terminal branch of `downloadLatestData` is either a clean
success or a fallback-built result. -/
theorem downloadLatestData_result_cases (fetch : Nat → Except JsError String)
    (st : ServiceState) (nowMs : Int) :
    (∃ e ra, (downloadLatestData fetch st nowMs).1 = createFallbackResult e ra st nowMs) ∨
    ((downloadLatestData fetch st nowMs).1.success = true ∧
     (downloadLatestData fetch st nowMs).1.fallbackUsed = some false) := by
  unfold downloadLatestData
  dsimp only
  split
  · exact Or.inr ⟨rfl, rfl⟩
  · split
    · split
      · split
        · exact Or.inr ⟨rfl, rfl⟩
        · exact Or.inl ⟨_, _, rfl⟩
      · exact Or.inl ⟨_, _, rfl⟩
    · exact Or.inl ⟨_, _, rfl⟩

/-- C2: for every behaviour of the network-fetch collaborator (including
one that always throws) and every cache state, `downloadLatestData` is a
total function into `DataRefreshResult` — no exception propagates — and
every outcome that is not a clean success (a failure or a fallback)
carries a structured `DataRefreshError` in `errorDetails`. -/
theorem downloadLatestData_failures_structured (fetch : Nat → Except JsError String)
    (st : ServiceState) (nowMs : Int)
    (h : (downloadLatestData fetch st nowMs).1.success = false ∨
         (downloadLatestData fetch st nowMs).1.fallbackUsed = some true) :
    ((downloadLatestData fetch st nowMs).1.errorDetails).isSome = true := by
  rcases downloadLatestData_result_cases fetch st nowMs with ⟨e, ra, heq⟩ | ⟨hs, hf⟩
  · rw [heq, createFallbackResult_errorDetails]
    rfl
  · rcases h with h | h
    · rw [hs] at h; cases h
    · rw [hf] at h; cases h

/-- Witness for C2: an always-throwing fetch over an empty service state
yields a failed result that still carries structured error details. -/
theorem downloadLatestData_failures_structured_witness :
    ((downloadLatestData
      (fun _ => .error { name := "TypeError", message := "Failed to fetch" })
      { config := DEFAULT_CONFIG, cacheConfig := defaultCacheConfig
        lastUpdateTime := none, cachedData := [], cacheMetadata := none
        storage := { entries := [], quota := none } } 500).1.errorDetails).isSome = true :=
  downloadLatestData_failures_structured
    (fun _ => .error { name := "TypeError", message := "Failed to fetch" })
    { config := DEFAULT_CONFIG, cacheConfig := defaultCacheConfig
      lastUpdateTime := none, cachedData := [], cacheMetadata := none
      storage := { entries := [], quota := none } } 500
    (Or.inl (by decide))

/-! ### C4: the overall validity formula of `validateData` -/

/-- C4: for every input text (and clock value), the outcome of
`validateData` has `isValid = true` exactly when all four conditions hold
on the returned outcome itself: no critical error was recorded (the
empty-content / HTML-content / missing-required-columns /
five-consecutive-invalid-rows filter), the header is valid, the final
(0-floored) quality score is at least 50, and at least 5 valid rows were
counted. -/
theorem validateData_validity_formula (csvContent : String) (nowMs : Int) :
    (validateData csvContent nowMs).isValid =
      (decide (criticalErrorCount (validateData csvContent nowMs).errors = 0) &&
       (validateData csvContent nowMs).hasRequiredColumns &&
       decide ((validateData csvContent nowMs).dataQualityScore ≥ 50) &&
       decide ((validateData csvContent nowMs).recordCount ≥ 5)) := by
  unfold validateData
  split
  · with_unfolding_all decide
  · split
    · with_unfolding_all decide
    · dsimp only
      split
      · dsimp only [createValidationResult]
        simp
      · rfl

/-! ### C6: `canProceed` and the confirmation requirement -/

/-- C6: for every `ValidationOutcome` fed to the quality-report
generator, the returned report satisfies
`canProceed = (no critical warnings ∧ overallScore ≥ 40 ∧
dataCompleteness ≥ 50%)`, and the requires-confirmation decision
(`DataValidationWarningSystem.requiresUserConfirmation` applied to the
report) equals `¬canProceed ∨ some high-severity warning ∨
overallScore < 60`. -/
theorem qualityReport_gate_formulas (vr : DataValidationResult)
    (recordCount : Nat) (totalRows nowMs : Int) :
    (generateQualityReport vr recordCount totalRows nowMs).canProceed =
      (decide (((generateQualityReport vr recordCount totalRows nowMs).warnings.filter
          (·.severity = .critical)).length = 0) &&
       decide ((generateQualityReport vr recordCount totalRows nowMs).overallScore ≥ 40) &&
       decide ((generateQualityReport vr recordCount totalRows nowMs).summary.dataCompleteness ≥ 50)) ∧
    requiresUserConfirmationCheck (generateQualityReport vr recordCount totalRows nowMs) =
      (!(generateQualityReport vr recordCount totalRows nowMs).canProceed ||
       (generateQualityReport vr recordCount totalRows nowMs).warnings.any (·.severity = .high) ||
       decide ((generateQualityReport vr recordCount totalRows nowMs).overallScore < 60)) := by
  constructor
  · rfl
  · have key : ∀ (n : Nat) (a b hi s : Bool),
        ((!(decide (n = 0) && a && b) || hi) || decide (n > 0) || s)
          = (!(decide (n = 0) && a && b) || hi || s) := by
      intro n a b hi s
      by_cases h : n = 0 <;> simp [h]
    exact key _ _ _ _ _

/-- A minimal record for bulk cache states. -/
def tinyRecord (i : Nat) : LotteryRecord :=
  { date := "", drawNumber := (i : Int), numbers := [], bonus := 1, jackpot := none }

/-! ### C5: Scenario A (valid header, exactly 3 well-formed data rows) -/

/-- The Scenario A input of the specification (and of the repository's
own `testValidCSVData`): a valid header plus three well-formed rows with
draw ids 5300, 5299, 5298. -/
def scenarioACSV : String :=
  "DrawNumber,Date,Num1,Num2,Num3,Num4,Num5,Num6,Bonus,Extra1,Extra2\n5300,16/07/2024,3,14,22,25,33,37,5,,\n5299,13/07/2024,1,8,15,28,31,36,2,,\n5298,10/07/2024,7,12,19,24,29,35,4,,"

/-- A clock value a few days after the latest Scenario A draw
(2024-07-20T00:00:00Z in epoch milliseconds). -/
def nowScenarioA : Int := 86400000 * daysFromCivil 2024 7 20

/-- C5 (evaluation at the failing input): `validateData` on Scenario A
returns `recordCount = 3`, `hasRequiredColumns = true` and
`dataQualityScore = 70 > 50` as the claim says, but `isValid = false` —
the ≥5-record rule is enforced (and the −30 "Dataset too small" penalty
charged) inside `validateData` itself, contradicting the claim (and the
repository's own test, which expects `isValid = true` and a score
≥ 80 on this exact input). -/
theorem validateData_scenarioA_eval :
    validateData scenarioACSV nowScenarioA =
      { isValid := false
        errors := ["Dataset too small (3 records). Minimum 5 records required."]
        warnings := ["Limited number diversity: Only 18 different numbers found",
                     "Limited bonus number diversity: Only 3 different bonus numbers"]
        recordCount := 3
        latestDate := "2024-07-16"
        hasRequiredColumns := true
        dataQualityScore := 70
        validationMetrics := some
          { totalRows := 3
            validRows := 3
            invalidRows := 0
            completenessRatio := 1
            dateEarliest := "2024-07-10"
            dateLatest := "2024-07-16"
            numberDiversity := 18
            bonusDiversity := 3
            suspiciousPatterns := 0 } } := by
  with_unfolding_all rfl

/-! ### C8: an out-of-range mutation need not lower the quality score -/

/-- A valid six-row dataset whose first row's draw id (5000) sits far
from the others, producing one draw-gap warning. -/
def monotonicityBaseCSV : String :=
  "DrawNumber,Date,Num1,Num2,Num3,Num4,Num5,Num6,Bonus\n5000,01/01/2024,1,2,13,14,26,27,1\n999,01/01/2024,3,4,15,16,28,29,2\n998,01/01/2024,5,6,17,18,30,31,3\n997,01/01/2024,7,8,19,20,32,33,4\n996,01/01/2024,9,10,21,22,34,35,5\n995,01/01/2024,11,12,23,24,36,37,6"

/-- The same dataset with one in-range main number of the first (valid)
row replaced by the out-of-range 38 (27 → 38 in row 1). -/
def monotonicityMutCSV : String :=
  "DrawNumber,Date,Num1,Num2,Num3,Num4,Num5,Num6,Bonus\n5000,01/01/2024,1,2,13,14,26,38,1\n999,01/01/2024,3,4,15,16,28,29,2\n998,01/01/2024,5,6,17,18,30,31,3\n997,01/01/2024,7,8,19,20,32,33,4\n996,01/01/2024,9,10,21,22,34,35,5\n995,01/01/2024,11,12,23,24,36,37,6"

/-- A clock value one day after the draws above (2024-01-02 UTC). -/
def nowMonotonicity : Int := 86400000 * daysFromCivil 2024 1 2

/-- C8 counterexample: on this valid input (isValid, positive score 90),
replacing the in-range main number 27 of the valid first row by the
out-of-range 38 raises the returned `dataQualityScore` from 90 to 91 —
the −4 row penalty is outweighed by the disappearance of the draw-gap
sequence warning (−5) once the row stops being valid — so the score does
not strictly decrease as claimed. -/
theorem qualityScore_mutation_counterexample :
    (validateData monotonicityBaseCSV nowMonotonicity).isValid = true ∧
    (validateData monotonicityBaseCSV nowMonotonicity).dataQualityScore = 90 ∧
    (validateData monotonicityMutCSV nowMonotonicity).dataQualityScore = 91 ∧
    ¬((validateData monotonicityMutCSV nowMonotonicity).dataQualityScore <
      (validateData monotonicityBaseCSV nowMonotonicity).dataQualityScore) := by
  refine ⟨?_, ?_, ?_, ?_⟩ <;> with_unfolding_all decide

/-- C8 as amended: the mutation does make the mutated row count as
invalid (valid rows drop from 6 to 5, one invalid row with exactly the
out-of-range error) while every other row stays valid, but the overall
`dataQualityScore` need not strictly decrease — here it strictly
increases (90 → 91), because losing the row also removes the draw-gap
sequence warning. -/
theorem qualityScore_mutation_amended :
    (validateData monotonicityBaseCSV nowMonotonicity).isValid = true ∧
    (validateData monotonicityBaseCSV nowMonotonicity).recordCount = 6 ∧
    (validateData monotonicityMutCSV nowMonotonicity).recordCount = 5 ∧
    (validateData monotonicityMutCSV nowMonotonicity).errors =
      ["Row 2: Number 38 out of range (1-37) in column 8"] ∧
    (validateData monotonicityBaseCSV nowMonotonicity).dataQualityScore <
      (validateData monotonicityMutCSV nowMonotonicity).dataQualityScore := by
  refine ⟨?_, ?_, ?_, ?_, ?_⟩ <;> with_unfolding_all decide

/-! ### C9: the quota-exceeded handler wipes the in-memory dataset -/

/-- A service state holding 101 records over a storage whose host quota
rejects every write (the proactive 4MB heuristic check still passes, so
the code reaches the hard `QuotaExceededError` failure). -/
def quotaFailState : ServiceState :=
  { config := DEFAULT_CONFIG
    cacheConfig := defaultCacheConfig
    lastUpdateTime := some 1000
    cachedData := (List.range 101).map tinyRecord
    cacheMetadata := none
    storage := { entries := [], quota := some 10 } }

/-- C9 (evaluation at the failing input): with more than 100 in-memory
records and a hard quota-exceeded write failure, the handler's
`clearCacheEnhanced` empties `this.cachedData` *before* the
`length > 100` test, so no reduced 100-record re-save happens (nothing is
persisted at all) and the in-memory dataset is lost rather than
preserved — the code contradicts its own `Retry with smaller dataset` /
`Restore full data in memory` comments and the specified behaviour. -/
theorem quotaExceeded_wipes_memory_eval :
    quotaFailState.cachedData.length = 101 ∧
    checkLocalStorageSpace quotaFailState.storage
      (saveEstimatedSize quotaFailState 2000) = true ∧
    (saveCachedDataEnhanced 2 quotaFailState 2000).cachedData = [] ∧
    (storageGetItem (saveCachedDataEnhanced 2 quotaFailState 2000).storage CACHE_KEY).isSome = false ∧
    (saveCachedDataEnhanced 2 quotaFailState 2000).lastUpdateTime = none := by
  refine ⟨?_, ?_, ?_, ?_, ?_⟩ <;> with_unfolding_all decide

/-! ### C7: cache round trip (supporting lemmas) -/

theorem lookup_entriesSet_self (l : List (String × JVal)) (k : String) (v : JVal) :
    (entriesSet l k v).lookup k = some v := by
  induction l with
  | nil => simp [entriesSet, List.lookup]
  | cons e rest ih =>
    obtain ⟨k', v'⟩ := e
    unfold entriesSet
    by_cases h : k' = k
    · simp [h, List.lookup]
    · simp only [if_neg h, List.lookup]
      rw [show (k == k') = false from beq_eq_false_iff_ne.mpr (fun hc => h hc.symm)]
      exact ih

theorem lookup_entriesSet_other (l : List (String × JVal)) (k k' : String) (v : JVal)
    (h : k' ≠ k) : (entriesSet l k v).lookup k' = l.lookup k' := by
  induction l with
  | nil =>
    simp only [entriesSet, List.lookup]
    rw [show (k' == k) = false from beq_eq_false_iff_ne.mpr h]
  | cons e rest ih =>
    obtain ⟨k₀, v₀⟩ := e
    unfold entriesSet
    by_cases h0 : k₀ = k
    · subst h0
      simp only [if_pos rfl, List.lookup]
      rw [show (k' == k₀) = false from beq_eq_false_iff_ne.mpr h]
    · simp only [if_neg h0, List.lookup]
      rcases Bool.eq_false_or_eq_true (k' == k₀) with hbe | hbe
      · rw [hbe]
      · rw [hbe]
        exact ih

/-- `storageSetItem` under an unlimited quota always succeeds and only
rewrites the entry list. -/
theorem storageSetItem_noQuota (st : JsStorage) (k : String) (v : JVal)
    (h : st.quota = none) :
    storageSetItem st k v = .ok { st with entries := entriesSet st.entries k v } := by
  unfold storageSetItem
  rw [h]

theorem asInt_jnum_intCast (n : Int) : JVal.asInt (JVal.jnum (n : ℚ)) = some n := by
  simp [JVal.asInt, Rat.den_intCast, Rat.num_intCast]

theorem mapMloop_roundtrip {α β : Type} (f : β → Option α) (g : α → β)
    (hfg : ∀ a, f (g a) = some a) (l : List α) (acc : List α) :
    List.mapM.loop f (l.map g) acc = some (acc.reverse ++ l) := by
  induction l generalizing acc with
  | nil => simp [List.mapM.loop]
  | cons x xs ih =>
    simp only [List.map_cons, List.mapM.loop, hfg, Option.bind_eq_bind, Option.some_bind]
    rw [ih (x :: acc)]
    simp

theorem mapM_asInt_jnum (ns : List Int) :
    List.mapM.loop JVal.asInt (ns.map (fun n : Int => JVal.jnum (n : ℚ))) [] = some ns := by
  simpa using mapMloop_roundtrip JVal.asInt (fun n : Int => JVal.jnum (n : ℚ))
    asInt_jnum_intCast ns []

theorem decompressRecord_compressRecordJson (r : LotteryRecord) :
    decompressRecord (compressRecordJson r) = some r := by
  obtain ⟨date, drawNumber, numbers, bonus, jackpot⟩ := r
  cases jackpot with
  | none =>
    simp [compressRecordJson, decompressRecord, JVal.getField, List.lookup,
      JVal.asStr, asInt_jnum_intCast, mapM_asInt_jnum]
  | some j =>
    simp [compressRecordJson, decompressRecord, JVal.getField, List.lookup,
      JVal.asStr, asInt_jnum_intCast, mapM_asInt_jnum]

theorem decompressData_compressData (l : List LotteryRecord) (h : l ≠ []) :
    decompressData (compressData l) = some l := by
  cases l with
  | nil => exact absurd rfl h
  | cons r rest =>
    have hfirst : ((compressRecordJson r).getField "d").isSome = true := by
      obtain ⟨date, drawNumber, numbers, bonus, jackpot⟩ := r
      cases jackpot <;> simp [compressRecordJson, JVal.getField, List.lookup]
    have hmap : ((r :: rest).map compressRecordJson).mapM decompressRecord = some (r :: rest) := by
      simpa using mapMloop_roundtrip decompressRecord compressRecordJson
        decompressRecord_compressRecordJson (r :: rest) []
    simp only [decompressData, compressData, List.map_cons, hfirst, if_pos]
    simpa using hmap

theorem metadataOfJson_metadataJson (md : CacheMetadata) :
    metadataOfJson (metadataJson md) = some md := by
  obtain ⟨version, timestamp, recordCount, dataHash, compressionRatio, lastAccessTime⟩ := md
  cases compressionRatio with
  | none =>
    simp only [metadataJson, metadataOfJson, JVal.getField, List.lookup]
    simp [JVal.asInt, JVal.asStr, JVal.asRat, Rat.den_intCast, Rat.num_intCast]
  | some q =>
    simp only [metadataJson, metadataOfJson, JVal.getField, List.lookup]
    simp [JVal.asInt, JVal.asStr, JVal.asRat, Rat.den_intCast, Rat.num_intCast]

theorem updateCacheAccessTime_preserves (st : ServiceState) (nowMs : Int) :
    (updateCacheAccessTime st nowMs).cachedData = st.cachedData ∧
    (updateCacheAccessTime st nowMs).lastUpdateTime = st.lastUpdateTime := by
  unfold updateCacheAccessTime
  cases st.cacheMetadata with
  | none => exact ⟨rfl, rfl⟩
  | some md =>
    dsimp only
    cases storageSetItem st.storage METADATA_KEY (metadataJson { md with lastAccessTime := nowMs }) with
    | ok s => exact ⟨rfl, rfl⟩
    | error m => exact ⟨rfl, rfl⟩

theorem jsStrLenGo_eq (l : List Char) : ∀ n : Nat, jsStrLenGo n l = n + l.length := by
  induction l with
  | nil => intro n; simp [jsStrLenGo]
  | cons c cs ih =>
    intro n
    show jsStrLenGo (n + 1) cs = n + (c :: cs).length
    rw [ih (n + 1)]
    simp
    omega

theorem jsStrLen_eq_length (s : String) : jsStrLen s = s.length := by
  unfold jsStrLen
  rw [jsStrLenGo_eq]
  exact Nat.zero_add _

theorem jsonStringify_jarr_len_pos (l : List JVal) :
    0 < jsStrLen (jsonStringify (.jarr l)) := by
  rw [jsStrLen_eq_length]
  show 0 < ("[" ++ jsonStringifyItems l ++ "]").length
  simp [String.length_append]
  exact Or.inr (by decide)

/-- With the pinned cache configuration, the persisted dataset is the
first `maxCacheSize` records. -/
theorem saveDataToCache_take (st : ServiceState)
    (hcc : st.cacheConfig = defaultCacheConfig) :
    saveDataToCache st = st.cachedData.take 1000 := by
  unfold saveDataToCache
  rw [hcc]
  split
  · rfl
  · rename_i hlen
    have hle : st.cachedData.length ≤ 1000 := by
      by_contra hgt
      exact hlen ⟨rfl, by show st.cachedData.length > 1000; omega⟩
    rw [List.take_of_length_le hle]

theorem saveDataToCache_ne_nil (st : ServiceState)
    (hcc : st.cacheConfig = defaultCacheConfig) (hne : st.cachedData ≠ []) :
    saveDataToCache st ≠ [] := by
  rw [saveDataToCache_take st hcc]
  simp [List.take_eq_nil_iff, hne]

/-- With compression pinned on, the stored ratio is a positive rational. -/
theorem saveDataToStore_ratio (st : ServiceState)
    (hcc : st.cacheConfig = defaultCacheConfig) :
    ∃ q : ℚ, (saveDataToStore st).2 = some q ∧ 0 < q := by
  unfold saveDataToStore
  rw [hcc]
  simp only [defaultCacheConfig, if_pos]
  refine ⟨_, rfl, ?_⟩
  apply div_pos
  · exact_mod_cast jsonStringify_jarr_len_pos _
  · exact_mod_cast jsonStringify_jarr_len_pos _

/-- The entry list after a successful save: the compressed blob under
the data key, then the metadata record under the metadata key. -/
def savedEntries (st : ServiceState) (now1 : Int) : List (String × JVal) :=
  entriesSet (entriesSet st.storage.entries CACHE_KEY (saveDataToStore st).1)
    METADATA_KEY (metadataJson (saveMetadata st now1))

/-- A successful save (non-empty data, space check passing, no host
quota) writes the compressed blob and the metadata and records the
metadata in memory, leaving the rest of the state alone. -/
theorem saveCachedDataEnhanced_writes (st : ServiceState) (now1 : Int)
    (hne : st.cachedData ≠ [])
    (hq : st.storage.quota = none)
    (hspace : checkLocalStorageSpace st.storage (saveEstimatedSize st now1) = true) :
    saveCachedDataEnhanced 2 st now1 =
      { st with
        storage := { st.storage with entries := savedEntries st now1 }
        cacheMetadata := some (saveMetadata st now1) } := by
  have hlen : ¬ st.cachedData.length = 0 := fun h => hne (List.length_eq_zero.mp h)
  conv_lhs => rw [saveCachedDataEnhanced]
  rw [if_neg hlen]
  dsimp only
  simp only [hspace, if_true]
  rw [storageSetItem_noQuota st.storage CACHE_KEY (saveDataToStore st).1 hq]
  dsimp only
  rw [storageSetItem_noQuota
    { entries := entriesSet st.storage.entries CACHE_KEY (saveDataToStore st).1,
      quota := st.storage.quota }
    METADATA_KEY (metadataJson (saveMetadata st now1)) hq]
  rfl

/-- A freshly constructed service instance (before its constructor's
cache load) over an existing persisted storage: the "simulated restart"
of the round-trip property. -/
def restartState (cfg : DataRefreshConfig) (storage : JsStorage) : ServiceState :=
  { config := cfg, cacheConfig := defaultCacheConfig
    lastUpdateTime := none, cachedData := [], cacheMetadata := none
    storage := storage }

theorem saveDataToStore_fst (st : ServiceState)
    (hcc : st.cacheConfig = defaultCacheConfig) :
    (saveDataToStore st).1 = compressData (saveDataToCache st) := by
  unfold saveDataToStore
  rw [hcc]
  rfl

/-- The central round-trip fact: saving a non-empty dataset (space check
passing, no host quota) and re-loading it on a fresh instance whose cache
age is within the timeout restores exactly the first `maxCacheSize`
records and the saved timestamp — the compression is inverted by the
decompression and the recomputed hash matches the stored one, otherwise
the load would have cleared the cache. -/
theorem loadAfterSave (st : ServiceState) (cfg2 : DataRefreshConfig) (now1 now2 : Int)
    (hcc : st.cacheConfig = defaultCacheConfig)
    (hne : st.cachedData ≠ [])
    (hq : st.storage.quota = none)
    (hspace : checkLocalStorageSpace st.storage (saveEstimatedSize st now1) = true)
    (hage : ¬ ((((now2 - (st.lastUpdateTime.getD now1) : Int) : ℚ) / (1000 * 60 * 60)) > cfg2.cacheTimeout)) :
    (loadCachedDataEnhanced
        (restartState cfg2 (saveCachedDataEnhanced 2 st now1).storage) now2).cachedData
      = st.cachedData.take 1000 ∧
    (loadCachedDataEnhanced
        (restartState cfg2 (saveCachedDataEnhanced 2 st now1).storage) now2).lastUpdateTime
      = some (st.lastUpdateTime.getD now1) := by
  rw [saveCachedDataEnhanced_writes st now1 hne hq hspace]
  have hmeta : storageGetItem
      { st.storage with entries := savedEntries st now1 } METADATA_KEY
      = some (metadataJson (saveMetadata st now1)) := by
    unfold storageGetItem savedEntries
    exact lookup_entriesSet_self _ _ _
  have hdata : storageGetItem
      { st.storage with entries := savedEntries st now1 } CACHE_KEY
      = some (saveDataToStore st).1 := by
    unfold storageGetItem savedEntries
    rw [lookup_entriesSet_other _ _ _ _ (by decide)]
    exact lookup_entriesSet_self _ _ _
  obtain ⟨q, hqe, hqpos⟩ := saveDataToStore_ratio st hcc
  have hratio : ratioTruthy (saveMetadata st now1).compressionRatio = true := by
    show ratioTruthy (saveDataToStore st).2 = true
    rw [hqe]
    simp [ratioTruthy]
    exact ne_of_gt hqpos
  have hdecomp : decompressData (saveDataToStore st).1 = some (saveDataToCache st) := by
    rw [saveDataToStore_fst st hcc]
    exact decompressData_compressData _ (saveDataToCache_ne_nil st hcc hne)
  have hlen1000 : ¬ (saveDataToCache st).length > 1000 := by
    rw [saveDataToCache_take st hcc]
    simp [List.length_take]
  unfold loadCachedDataEnhanced
  rw [show (restartState cfg2 { st.storage with entries := savedEntries st now1 }).storage
      = { st.storage with entries := savedEntries st now1 } from rfl] at *
  rw [hmeta]
  dsimp only
  rw [metadataOfJson_metadataJson]
  dsimp only
  rw [if_neg (fun h => h rfl)]
  simp only [show (saveMetadata st now1).timestamp = st.lastUpdateTime.getD now1 from rfl,
    show ∀ s, (restartState cfg2 s).config.cacheTimeout = cfg2.cacheTimeout from fun _ => rfl]
  rw [if_neg hage]
  rw [hdata]
  dsimp only
  rw [if_pos ⟨rfl, hratio⟩]
  rw [hdecomp]
  dsimp only
  rw [if_neg (fun h => h rfl)]
  rw [if_neg (fun h => hlen1000 h.2)]
  constructor
  · rw [(updateCacheAccessTime_preserves _ _).1]
    exact saveDataToCache_take st hcc
  · rw [(updateCacheAccessTime_preserves _ _).2]

/-- Whatever the storage holds, a load on the pinned cache configuration
never leaves more than `maxCacheSize = 1000` records in memory: every
clearing branch leaves 0 and the success branch trims. -/
theorem loadCachedDataEnhanced_length_le (st : ServiceState) (nowMs : Int)
    (hcc : st.cacheConfig = defaultCacheConfig) :
    (loadCachedDataEnhanced st nowMs).cachedData.length ≤ 1000 := by
  unfold loadCachedDataEnhanced
  repeat' split
  all_goals try (simp [initializeEmptyCache, clearCacheEnhanced]; done)
  all_goals dsimp only
  all_goals repeat' split
  all_goals try (simp [initializeEmptyCache, clearCacheEnhanced]; done)
  all_goals
    first
    | (rw [(updateCacheAccessTime_preserves _ _).1]
       dsimp only
       rw [hcc]
       dsimp only [defaultCacheConfig]
       rw [List.length_take]
       exact Nat.min_le_left _ _)
    | (rw [(updateCacheAccessTime_preserves _ _).1]
       dsimp only
       rename_i h2
       rw [hcc] at h2
       push_neg at h2
       exact h2 rfl)

/-- A single-record state over an empty host storage, exercising the
round-trip on the pinned cache configuration. -/
def c7WitnessState : ServiceState :=
  { config := DEFAULT_CONFIG, cacheConfig := defaultCacheConfig
    lastUpdateTime := some 0, cachedData := [tinyRecord 0], cacheMetadata := none
    storage := { entries := [], quota := none } }

/-- A 1001-record state over an empty host storage: one more record than
`maxCacheSize`, so the save trims it. -/
def c7BigState : ServiceState :=
  { config := DEFAULT_CONFIG, cacheConfig := defaultCacheConfig
    lastUpdateTime := some 0, cachedData := (List.range 1001).map tinyRecord
    cacheMetadata := none
    storage := { entries := [], quota := none } }

/-- C7: saving a non-empty dataset through `saveCachedDataEnhanced` and
re-loading it on a fresh instance through `loadCachedDataEnhanced` (same
version, cache age within the timeout, untampered storage, space check
passing, no host quota) restores exactly the first
`maxCacheSize = 1000` records — so the compression is inverted by the
decompression and the recomputed hash matches the stored one — and the
round trip is the identity precisely when the dataset has at most 1000
records. -/
theorem cache_roundTrip_take (st : ServiceState) (cfg2 : DataRefreshConfig) (now1 now2 : Int)
    (hcc : st.cacheConfig = defaultCacheConfig)
    (hne : st.cachedData ≠ [])
    (hq : st.storage.quota = none)
    (hspace : checkLocalStorageSpace st.storage (saveEstimatedSize st now1) = true)
    (hage : ¬ ((((now2 - (st.lastUpdateTime.getD now1) : Int) : ℚ) / (1000 * 60 * 60)) > cfg2.cacheTimeout)) :
    (loadCachedDataEnhanced
        (restartState cfg2 (saveCachedDataEnhanced 2 st now1).storage) now2).cachedData
      = st.cachedData.take 1000 ∧
    (st.cachedData.length ≤ 1000 →
      (loadCachedDataEnhanced
          (restartState cfg2 (saveCachedDataEnhanced 2 st now1).storage) now2).cachedData
        = st.cachedData) := by
  have h := loadAfterSave st cfg2 now1 now2 hcc hne hq hspace hage
  exact ⟨h.1, fun hlen => h.1.trans (List.take_of_length_le hlen)⟩

/-- C7 witness: the round trip on a concrete single-record state, every
hypothesis discharged by evaluation. -/
theorem cache_roundTrip_take_witness :
    c7WitnessState.cacheConfig = defaultCacheConfig ∧
    c7WitnessState.cachedData ≠ [] ∧
    c7WitnessState.storage.quota = none ∧
    checkLocalStorageSpace c7WitnessState.storage (saveEstimatedSize c7WitnessState 0) = true ∧
    ¬ ((((0 - (c7WitnessState.lastUpdateTime.getD 0) : Int) : ℚ) / (1000 * 60 * 60)) > DEFAULT_CONFIG.cacheTimeout) ∧
    ((loadCachedDataEnhanced
        (restartState DEFAULT_CONFIG (saveCachedDataEnhanced 2 c7WitnessState 0).storage) 0).cachedData
      = c7WitnessState.cachedData.take 1000 ∧
     (c7WitnessState.cachedData.length ≤ 1000 →
      (loadCachedDataEnhanced
          (restartState DEFAULT_CONFIG (saveCachedDataEnhanced 2 c7WitnessState 0).storage) 0).cachedData
        = c7WitnessState.cachedData)) :=
  ⟨rfl, List.cons_ne_nil _ _, rfl,
   by with_unfolding_all decide,
   by with_unfolding_all decide,
   cache_roundTrip_take c7WitnessState DEFAULT_CONFIG 0 0 rfl (List.cons_ne_nil _ _) rfl
     (by with_unfolding_all decide) (by with_unfolding_all decide)⟩

/-- C7 counterexample to the claim as stated: a non-empty dataset of 1001
records (one over `maxCacheSize`) for which save-then-load cannot return
the original list — the load never leaves more than 1000 records in
memory, whatever the storage holds. -/
theorem cache_roundTrip_counterexample :
    c7BigState.cachedData ≠ [] ∧
    c7BigState.cachedData.length = 1001 ∧
    (loadCachedDataEnhanced
        (restartState DEFAULT_CONFIG (saveCachedDataEnhanced 2 c7BigState 0).storage) 0).cachedData
      ≠ c7BigState.cachedData := by
  refine ⟨?_, ?_, ?_⟩
  · simp [c7BigState]
  · simp [c7BigState]
  · intro h
    have h1 := loadCachedDataEnhanced_length_le
      (restartState DEFAULT_CONFIG (saveCachedDataEnhanced 2 c7BigState 0).storage) 0 rfl
    rw [h] at h1
    simp [c7BigState] at h1

end WinSphere
